import Mathlib

/-!
Shallow embedding of the `pokeball_game` Solana program
(`programs/pokeball_game/src`), covering the randomness-driven
catch/spawn protocol and the NFT vault: the `consume_randomness`
instruction (spawn and throw resolution), the slot-registry
administrative instructions (`force_spawn_pokemon`, `despawn_pokemon`,
`reposition_pokemon`), the vault instructions (`deposit_nft`,
`withdraw_nft`), `purchase_balls`, and the `spawn_pokemon` request
handler.

Modelling conventions:
- machine integers are `Nat`; checked arithmetic is explicit
  (`checkedAddU64` etc. fail with `MathOverflow` above the width bound,
  exactly like Rust's `checked_add` mapped through `ok_or`);
  `u8::saturating_sub(1)` on a `Nat` is truncated subtraction `- 1`;
- `Pubkey` is `Nat`, with `0` standing for `Pubkey::default()`;
- fixed-size arrays (`[PokemonSlot; 20]`, `[Pubkey; 20]`) are index
  functions `Nat → _`; the program only ever touches indices `< 20`
  (every handler bound-checks its index before use);
- a handler is a pure function returning `Except GameError (state ×
  events)`; returning `.error` models the instruction failing, in which
  case the Solana runtime rolls the transaction back and on-chain state
  is unchanged;
- the ORAO randomness account is an `Option (Nat → Nat)`: `none` when
  the account cannot be decoded as fulfilled (both the
  `try_deserialize` failure and `fulfilled_randomness() == None` map to
  `GameError::VrfNotFulfilled`), `some r` giving the 64 fulfilled bytes;
- `remaining_accounts` groups of three (`nft_mint`, `vault_ata`,
  `player_ata`) are a `List TransferGroup`; the two Boolean fields model
  the checks `*ra_vault_ata.owner == token::ID` and
  `*ra_player_ata.owner == token::ID`; the SPL token transfer CPI itself
  is modelled as succeeding (custody transfer is out of core scope);
- account-plumbing fields (PDA bumps, seeds) are dropped.
-/

namespace Pokeball

/-- Constants from `constants.rs`. -/
abbrev MAX_POKEMON_SLOTS : Nat := 20

/-- Maximum coordinate value for Pokemon positions (0-999). -/
abbrev MAX_COORDINATE : Nat := 999

/-- Maximum throw attempts per Pokemon. -/
abbrev MAX_THROW_ATTEMPTS : Nat := 3

/-- Maximum number of NFTs the vault can hold. -/
abbrev MAX_VAULT_SIZE : Nat := 20

/-- Number of ball types (Poke, Great, Ultra, Master). -/
abbrev NUM_BALL_TYPES : Nat := 4

/-- VRF request type: spawn. -/
abbrev VRF_TYPE_SPAWN : Nat := 0

/-- VRF request type: throw. -/
abbrev VRF_TYPE_THROW : Nat := 1

/-- Largest value of a `u8`. -/
abbrev U8_MAX : Nat := 255

/-- Largest value of a `u32`. -/
abbrev U32_MAX : Nat := 2 ^ 32 - 1

/-- Largest value of a `u64`. -/
abbrev U64_MAX : Nat := 2 ^ 64 - 1

/-- Largest value of a `u128`. -/
abbrev U128_MAX : Nat := 2 ^ 128 - 1

/-- Error codes from `errors.rs` (`GameError`). -/
inductive GameError where
  | AlreadyInitialized
  | NotInitialized
  | InvalidBallType
  | InvalidCatchRate
  | InsufficientBalls
  | SlotNotActive
  | SlotAlreadyOccupied
  | InvalidSlotIndex
  | MaxAttemptsReached
  | InvalidCoordinate
  | MaxActivePokemonReached
  | InvalidMaxActivePokemon
  | VaultFull
  | VaultEmpty
  | InvalidNftIndex
  | NftNotInVault
  | InsufficientSolBalls
  | ZeroQuantity
  | PurchaseExceedsMax
  | VrfAlreadyFulfilled
  | VrfNotFulfilled
  | InvalidVrfRequestType
  | InsufficientWithdrawalAmount
  | MathOverflow
  | ZeroBallPrice
  | Unauthorized
  | NftTransferAccountsMissing
  deriving DecidableEq, Repr

/-- Rust `u64::checked_add` followed by `.ok_or(GameError::MathOverflow)?`. -/
def checkedAddU64 (a b : Nat) : Except GameError Nat :=
  if a + b ≤ U64_MAX then .ok (a + b) else .error .MathOverflow

/-- Rust `u32::checked_add` followed by `.ok_or(GameError::MathOverflow)?`. -/
def checkedAddU32 (a b : Nat) : Except GameError Nat :=
  if a + b ≤ U32_MAX then .ok (a + b) else .error .MathOverflow

/-- Rust `u8::checked_add` followed by `.ok_or(GameError::MathOverflow)?`. -/
def checkedAddU8 (a b : Nat) : Except GameError Nat :=
  if a + b ≤ U8_MAX then .ok (a + b) else .error .MathOverflow

/-- Rust `u128::checked_mul` followed by `.ok_or(GameError::MathOverflow)?`. -/
def checkedMulU128 (a b : Nat) : Except GameError Nat :=
  if a * b ≤ U128_MAX then .ok (a * b) else .error .MathOverflow

/-- One Pokemon spawn slot (`state.rs`, `PokemonSlot`). -/
structure PokemonSlot where
  is_active : Bool
  pokemon_id : Nat
  pos_x : Nat
  pos_y : Nat
  throw_attempts : Nat
  spawn_timestamp : Int
  deriving DecidableEq, Repr

/-- Rust `PokemonSlot::default()`: all fields zero / false. -/
def PokemonSlot.empty : PokemonSlot :=
  { is_active := false, pokemon_id := 0, pos_x := 0, pos_y := 0
    throw_attempts := 0, spawn_timestamp := 0 }

/-- Slot registry (`state.rs`, `PokemonSlots`): the array of 20 slots is
an index function; only indices `< 20` are meaningful. -/
structure PokemonSlots where
  slots : Nat → PokemonSlot
  active_count : Nat

/-- Global game configuration (`state.rs`, `GameConfig`); the two
four-entry tables are index functions over `0..3`. -/
structure GameConfig where
  authority : Nat
  treasury : Nat
  solballs_mint : Nat
  usdc_mint : Nat
  ball_prices : Nat → Nat
  catch_rates : Nat → Nat
  max_active_pokemon : Nat
  pokemon_id_counter : Nat
  total_revenue : Nat
  is_initialized : Bool
  vrf_counter : Nat

/-- NFT vault (`state.rs`, `NftVault`): 20-entry mint array as an index
function, `0` standing for `Pubkey::default()`. -/
structure NftVault where
  authority : Nat
  mints : Nat → Nat
  count : Nat
  max_size : Nat

/-- Per-player inventory (`state.rs`, `PlayerInventory`). -/
structure PlayerInventory where
  player : Nat
  balls : Nat → Nat
  total_purchased : Nat
  total_throws : Nat
  total_catches : Nat

/-- Pending VRF request (`state.rs`, `VrfRequest`); the 32-byte seed is
dropped (the oracle record it addresses is passed explicitly). -/
structure VrfRequest where
  request_type : Nat
  player : Nat
  slot_index : Nat
  ball_type : Nat
  is_fulfilled : Bool
  deriving DecidableEq, Repr

/-- The mutable accounts `consume_randomness` declares. -/
structure GameState where
  game_config : GameConfig
  pokemon_slots : PokemonSlots
  nft_vault : NftVault
  player_inventory : Option PlayerInventory
  vrf_request : VrfRequest

/-- Domain events from `events.rs` (only those the embedded handlers
emit), with `Pubkey` fields as `Nat`. -/
inductive GameEvent where
  | PokemonSpawned (pokemon_id slot_index pos_x pos_y : Nat)
  | CaughtPokemon (catcher pokemon_id slot_index nft_mint : Nat)
  | FailedCatch (thrower pokemon_id slot_index attempts_remaining : Nat)
  | PokemonRelocated (pokemon_id slot_index old_x old_y new_x new_y : Nat)
  | PokemonDespawned (pokemon_id slot_index : Nat)
  | NftAwarded (winner nft_mint vault_remaining : Nat)
  | NftDeposited (nft_mint vault_count : Nat)
  | NftWithdrawn (nft_mint vault_count : Nat)
  | BallPurchased (buyer ball_type quantity total_cost : Nat)
  deriving DecidableEq, Repr

/-- One group of three `remaining_accounts` entries
(`[nft_mint, vault_ata, player_ata]`); the Booleans model whether each
ATA is owned by the SPL token program. -/
structure TransferGroup where
  mint : Nat
  vault_ata_token_owned : Bool
  player_ata_token_owned : Bool
  deriving DecidableEq, Repr

/-- Little-endian `u16` of two bytes (`u16::from_le_bytes([b0, b1])`). -/
def leU16 (b0 b1 : Nat) : Nat := b0 + 256 * b1

/-- Little-endian `u64` of the eight bytes of `r` starting at `lo`
(`u64::from_le_bytes(&r[lo..lo+8])`). -/
def leU64at (r : Nat → Nat) (lo : Nat) : Nat :=
  r lo + 256 * (r (lo + 1) + 256 * (r (lo + 2) + 256 * (r (lo + 3) +
    256 * (r (lo + 4) + 256 * (r (lo + 5) + 256 * (r (lo + 6) +
    256 * r (lo + 7)))))))

/-- A genuine 64-byte blob: every byte below 256. -/
def IsByteBlob (r : Nat → Nat) : Prop := ∀ i, i < 64 → r i < 256

/-- Spawn x position: bytes `[0..2]` little-endian, mod
`MAX_COORDINATE + 1` (`consume_randomness.rs` line 105). -/
def spawnPosX (r : Nat → Nat) : Nat := leU16 (r 0) (r 1) % (MAX_COORDINATE + 1)

/-- Spawn y position: bytes `[2..4]` little-endian, mod
`MAX_COORDINATE + 1` (`consume_randomness.rs` line 106). -/
def spawnPosY (r : Nat → Nat) : Nat := leU16 (r 2) (r 3) % (MAX_COORDINATE + 1)

/-- Catch roll: bytes `[0..8]` little-endian `u64`, mod 100
(`consume_randomness.rs` lines 159-160). -/
def catchRoll (r : Nat → Nat) : Nat := leU64at r 0 % 100

/-- NFT pool-selection index: bytes `[8..16]` little-endian `u64`, mod
the current vault count (`consume_randomness.rs` lines 174-175). -/
def nftSelIndex (r : Nat → Nat) (count : Nat) : Nat := leU64at r 8 % count

/-- Relocation x position: bytes `[16..18]` little-endian, mod
`MAX_COORDINATE + 1` (`consume_randomness.rs` line 293). -/
def relocX (r : Nat → Nat) : Nat := leU16 (r 16) (r 17) % (MAX_COORDINATE + 1)

/-- Relocation y position: bytes `[18..20]` little-endian, mod
`MAX_COORDINATE + 1` (`consume_randomness.rs` line 294). -/
def relocY (r : Nat → Nat) : Nat := leU16 (r 18) (r 19) % (MAX_COORDINATE + 1)

/-- Swap-with-last removal on the mint array, shared verbatim by
`withdraw_nft.rs` lines 86-91 and `consume_randomness.rs` lines
182-186: copy the last live entry over the removed index (when they
differ) and clear the vacated last entry to the default. -/
def removeMintAt (m : Nat → Nat) (count idx : Nat) : Nat → Nat :=
  let last := count - 1
  let m1 := if idx ≠ last then Function.update m idx (m last) else m
  Function.update m1 last 0

/-- Handler of a VRF spawn result (`consume_randomness.rs`,
`handle_spawn`); `now` is `Clock::get()?.unix_timestamp`. -/
def handle_spawn (st : GameState) (r : Nat → Nat) (now : Int) :
    Except GameError (GameState × List GameEvent) := do
  let slot_idx := st.vrf_request.slot_index
  if slot_idx < MAX_POKEMON_SLOTS then
    let pos_x := spawnPosX r
    let pos_y := spawnPosY r
    let pid ← checkedAddU64 st.game_config.pokemon_id_counter 1
    let newSlot : PokemonSlot :=
      { is_active := true, pokemon_id := pid, pos_x := pos_x, pos_y := pos_y
        throw_attempts := 0, spawn_timestamp := now }
    let ac ← checkedAddU8 st.pokemon_slots.active_count 1
    .ok ({ st with
            game_config := { st.game_config with pokemon_id_counter := pid }
            pokemon_slots :=
              { slots := Function.update st.pokemon_slots.slots slot_idx newSlot
                active_count := ac }
            vrf_request := { st.vrf_request with is_fulfilled := true } },
         [.PokemonSpawned pid slot_idx pos_x pos_y])
  else .error .InvalidSlotIndex

/-- Award step of a caught throw (`consume_randomness.rs` lines
169-246): when the vault is non-empty, select an index from bytes
`[8..16]`, remove that mint swap-with-last *before* any transfer, then
search `remaining_accounts` for the awarded mint's transfer group — a
found group with an ATA not owned by the token program fails the whole
instruction; an absent group degrades to the backend-sweep warning
without rolling back the removal. Returns the new vault, the awarded
mint (`Pubkey::default()` = 0 when the vault is empty) and the emitted
`NftAwarded` events. -/
def awardStep (v : NftVault) (player : Nat) (r : Nat → Nat)
    (remaining : List TransferGroup) :
    Except GameError (NftVault × Nat × List GameEvent) :=
  if 0 < v.count then
    let nft_index := nftSelIndex r v.count
    let awarded := v.mints nft_index
    let v' : NftVault :=
      { v with mints := removeMintAt v.mints v.count nft_index
               count := v.count - 1 }
    match remaining.find? (fun g => g.mint == awarded) with
    | some g =>
      if g.vault_ata_token_owned && g.player_ata_token_owned then
        .ok (v', awarded, [.NftAwarded player awarded v'.count])
      else .error .NftTransferAccountsMissing
    | none =>
      .ok (v', awarded, [.NftAwarded player awarded v'.count])
  else .ok (v, 0, [])

/-- Player-stat step of a caught throw (`consume_randomness.rs` lines
249-253): check-increment `total_catches` when an inventory account
was supplied. -/
def catchInventoryStep (inv? : Option PlayerInventory) :
    Except GameError (Option PlayerInventory) :=
  match inv? with
  | some inv => do
    let tc ← checkedAddU64 inv.total_catches 1
    pure (some { inv with total_catches := tc })
  | none => pure none

/-- Handler of a VRF throw result (`consume_randomness.rs`,
`handle_throw`). -/
def handle_throw (st : GameState) (r : Nat → Nat)
    (remaining : List TransferGroup) :
    Except GameError (GameState × List GameEvent) := do
  let slot_idx := st.vrf_request.slot_index
  if slot_idx < MAX_POKEMON_SLOTS then
    let ball_type := st.vrf_request.ball_type
    if ball_type < NUM_BALL_TYPES then
      let catch_rate := st.game_config.catch_rates ball_type
      let pokemon_id := (st.pokemon_slots.slots slot_idx).pokemon_id
      let player := st.vrf_request.player
      if catchRoll r < catch_rate then
        -- === CAUGHT ===
        let (v', awarded_mint, award_events) ←
          awardStep st.nft_vault player r remaining
        let inv' ← catchInventoryStep st.player_inventory
        .ok ({ st with
                nft_vault := v'
                player_inventory := inv'
                pokemon_slots :=
                  { slots := Function.update st.pokemon_slots.slots slot_idx
                      PokemonSlot.empty
                    active_count := st.pokemon_slots.active_count - 1 }
                vrf_request := { st.vrf_request with is_fulfilled := true } },
             award_events ++
               [.CaughtPokemon player pokemon_id slot_idx awarded_mint])
      else
        -- === MISSED ===
        let oldSlot := st.pokemon_slots.slots slot_idx
        let ta ← checkedAddU8 oldSlot.throw_attempts 1
        if MAX_THROW_ATTEMPTS ≤ ta then
          let new_x := relocX r
          let new_y := relocY r
          let newSlot := { oldSlot with pos_x := new_x, pos_y := new_y
                                        throw_attempts := 0 }
          .ok ({ st with
                  pokemon_slots :=
                    { slots := Function.update st.pokemon_slots.slots slot_idx
                        newSlot
                      active_count := st.pokemon_slots.active_count }
                  vrf_request := { st.vrf_request with is_fulfilled := true } },
               [.PokemonRelocated pokemon_id slot_idx oldSlot.pos_x
                  oldSlot.pos_y new_x new_y,
                .FailedCatch player pokemon_id slot_idx MAX_THROW_ATTEMPTS])
        else
          let newSlot := { oldSlot with throw_attempts := ta }
          .ok ({ st with
                  pokemon_slots :=
                    { slots := Function.update st.pokemon_slots.slots slot_idx
                        newSlot
                      active_count := st.pokemon_slots.active_count }
                  vrf_request := { st.vrf_request with is_fulfilled := true } },
               [.FailedCatch player pokemon_id slot_idx
                  (MAX_THROW_ATTEMPTS - ta)])
    else .error .InvalidBallType
  else .error .InvalidSlotIndex

/-- The `consume_randomness` instruction (`consume_randomness.rs`): the
Anchor account constraint `!vrf_request.is_fulfilled @
VrfAlreadyFulfilled` is evaluated before the handler body runs, hence
before any mutation; `oracle` is the decoded ORAO randomness record. -/
def consume_randomness (st : GameState) (oracle : Option (Nat → Nat))
    (remaining : List TransferGroup) (now : Int) :
    Except GameError (GameState × List GameEvent) :=
  if st.vrf_request.is_fulfilled then .error .VrfAlreadyFulfilled
  else
    match oracle with
    | none => .error .VrfNotFulfilled
    | some r =>
      if st.vrf_request.request_type = VRF_TYPE_SPAWN then
        handle_spawn st r now
      else if st.vrf_request.request_type = VRF_TYPE_THROW then
        handle_throw st r remaining
      else .error .InvalidVrfRequestType

/-- The `despawn_pokemon` handler (`despawn_pokemon.rs`). -/
def despawn_pokemon (ps : PokemonSlots) (slot_index : Nat) :
    Except GameError (PokemonSlots × List GameEvent) :=
  if slot_index < MAX_POKEMON_SLOTS then
    let slot := ps.slots slot_index
    if slot.is_active then
      .ok ({ slots := Function.update ps.slots slot_index PokemonSlot.empty
             active_count := ps.active_count - 1 },
           [.PokemonDespawned slot.pokemon_id slot_index])
    else .error .SlotNotActive
  else .error .InvalidSlotIndex

/-- The `force_spawn_pokemon` handler (`force_spawn_pokemon.rs`). -/
def force_spawn_pokemon (cfg : GameConfig) (ps : PokemonSlots)
    (slot_index pos_x pos_y : Nat) (now : Int) :
    Except GameError (GameConfig × PokemonSlots × List GameEvent) := do
  if slot_index < MAX_POKEMON_SLOTS then
    if pos_x ≤ MAX_COORDINATE then
      if pos_y ≤ MAX_COORDINATE then
        if (ps.slots slot_index).is_active then .error .SlotAlreadyOccupied
        else
          if ps.active_count < cfg.max_active_pokemon then
            let pid ← checkedAddU64 cfg.pokemon_id_counter 1
            let ac ← checkedAddU8 ps.active_count 1
            let newSlot : PokemonSlot :=
              { is_active := true, pokemon_id := pid, pos_x := pos_x
                pos_y := pos_y, throw_attempts := 0, spawn_timestamp := now }
            .ok ({ cfg with pokemon_id_counter := pid },
                 { slots := Function.update ps.slots slot_index newSlot
                   active_count := ac },
                 [.PokemonSpawned pid slot_index pos_x pos_y])
          else .error .MaxActivePokemonReached
      else .error .InvalidCoordinate
    else .error .InvalidCoordinate
  else .error .InvalidSlotIndex

/-- The `reposition_pokemon` handler (`reposition_pokemon.rs`). -/
def reposition_pokemon (ps : PokemonSlots)
    (slot_index new_pos_x new_pos_y : Nat) :
    Except GameError (PokemonSlots × List GameEvent) :=
  if slot_index < MAX_POKEMON_SLOTS then
    if new_pos_x ≤ MAX_COORDINATE then
      if new_pos_y ≤ MAX_COORDINATE then
        let slot := ps.slots slot_index
        if slot.is_active then
          .ok ({ slots := Function.update ps.slots slot_index
                   { slot with pos_x := new_pos_x, pos_y := new_pos_y
                               throw_attempts := 0 }
                 active_count := ps.active_count },
               [.PokemonRelocated slot.pokemon_id slot_index slot.pos_x
                  slot.pos_y new_pos_x new_pos_y])
        else .error .SlotNotActive
      else .error .InvalidCoordinate
    else .error .InvalidCoordinate
  else .error .InvalidSlotIndex

/-- The `deposit_nft` handler (`deposit_nft.rs`): after the SPL
transfer, the mint is appended at index `count` and `count` is
check-incremented. -/
def deposit_nft (v : NftVault) (nft_mint : Nat) :
    Except GameError (NftVault × List GameEvent) := do
  if v.count < v.max_size then
    let mints' := Function.update v.mints v.count nft_mint
    let c ← checkedAddU8 v.count 1
    .ok ({ v with mints := mints', count := c },
         [.NftDeposited nft_mint c])
  else .error .VaultFull

/-- The `withdraw_nft` handler (`withdraw_nft.rs`): swap-and-pop
removal at the caller-supplied index. -/
def withdraw_nft (v : NftVault) (nft_index : Nat) :
    Except GameError (NftVault × List GameEvent) :=
  if nft_index < v.count then
    let nft_mint_key := v.mints nft_index
    .ok ({ v with mints := removeMintAt v.mints v.count nft_index
                  count := v.count - 1 },
         [.NftWithdrawn nft_mint_key (v.count - 1)])
  else .error .InvalidNftIndex

/-- The `purchase_balls` handler (`purchase_balls.rs`).
`player_balance` is `player_token_account.amount`; `player_key` the
signer. `max_purchase` stands for the constant `MAX_PURCHASE_AMOUNT`,
which is referenced by `purchase_balls.rs` but whose defining source is
not part of the provided tree, so it is kept as a parameter. -/
def purchase_balls (cfg : GameConfig) (inv : PlayerInventory)
    (player_balance max_purchase player_key ball_type quantity : Nat) :
    Except GameError (GameConfig × PlayerInventory × List GameEvent) := do
  if ball_type < NUM_BALL_TYPES then
    if 0 < quantity then
      let price_per_ball := cfg.ball_prices ball_type
      let total_cost ← checkedMulU128 price_per_ball quantity
      if total_cost ≤ U64_MAX then
        if total_cost ≤ max_purchase then
          if total_cost ≤ player_balance then
            let inv1 := if inv.player = 0 then { inv with player := player_key }
                        else inv
            let nb ← checkedAddU32 (inv1.balls ball_type) quantity
            let tp ← checkedAddU64 inv1.total_purchased quantity
            let rev ← checkedAddU64 cfg.total_revenue total_cost
            .ok ({ cfg with total_revenue := rev },
                 { inv1 with
                     balls := Function.update inv1.balls ball_type nb
                     total_purchased := tp },
                 [.BallPurchased player_key ball_type quantity total_cost])
          else .error .InsufficientSolBalls
        else .error .PurchaseExceedsMax
      else .error .MathOverflow
    else .error .ZeroQuantity
  else .error .InvalidBallType

/-- The `spawn_pokemon` request handler (`spawn_pokemon.rs`), reduced
to the state it mutates: it validates the slot and cap, records the
request, and check-increments `vrf_counter` (the ORAO CPI and the seed
bytes are plumbing). -/
def spawn_pokemon_request (cfg : GameConfig) (ps : PokemonSlots)
    (slot_index : Nat) : Except GameError (GameConfig × VrfRequest) := do
  if slot_index < MAX_POKEMON_SLOTS then
    if (ps.slots slot_index).is_active then .error .SlotAlreadyOccupied
    else
      if ps.active_count < cfg.max_active_pokemon then
        let vc ← checkedAddU64 cfg.vrf_counter 1
        .ok ({ cfg with vrf_counter := vc },
             { request_type := VRF_TYPE_SPAWN, player := cfg.authority
               slot_index := slot_index, ball_type := 0
               is_fulfilled := false })
      else .error .MaxActivePokemonReached
  else .error .InvalidSlotIndex

/-- Number of active slots among the 20 registry entries. -/
def activeCard (ps : PokemonSlots) : Nat :=
  ((Finset.range MAX_POKEMON_SLOTS).filter
    (fun i => (ps.slots i).is_active = true)).card

/-- The slot-registry invariant (spec section 3): `active_count` equals
the number of slots with `is_active = true`; every active slot has a
non-zero `pokemon_id`, unique among active slots; every slot's
`throw_attempts` is at most `MAX_THROW_ATTEMPTS`. -/
def registryInv (ps : PokemonSlots) : Prop :=
  ps.active_count = activeCard ps ∧
  (∀ i, i < MAX_POKEMON_SLOTS → (ps.slots i).is_active = true →
    (ps.slots i).pokemon_id ≠ 0) ∧
  (∀ i, i < MAX_POKEMON_SLOTS → ∀ j, j < MAX_POKEMON_SLOTS → i ≠ j →
    (ps.slots i).is_active = true → (ps.slots j).is_active = true →
    (ps.slots i).pokemon_id ≠ (ps.slots j).pokemon_id) ∧
  (∀ i, i < MAX_POKEMON_SLOTS →
    (ps.slots i).throw_attempts ≤ MAX_THROW_ATTEMPTS)

/-- Auxiliary inductive invariant: every active slot's id was issued by
the monotone counter, so is at most `pokemon_id_counter`. -/
def idsBounded (cfg : GameConfig) (ps : PokemonSlots) : Prop :=
  ∀ i, i < MAX_POKEMON_SLOTS → (ps.slots i).is_active = true →
    (ps.slots i).pokemon_id ≤ cfg.pokemon_id_counter

/-- The vault invariant (spec section 3): `count` equals the number of
non-default entries of the 20-entry array, the first `count` entries
are non-default and pairwise distinct, entries at or past `count` are
the default `Pubkey` (0), and the array bounds are respected. -/
def vaultInv (v : NftVault) : Prop :=
  v.count ≤ MAX_POKEMON_SLOTS ∧
  v.max_size ≤ MAX_POKEMON_SLOTS ∧
  ((Finset.range MAX_POKEMON_SLOTS).filter (fun i => v.mints i ≠ 0)).card
    = v.count ∧
  (∀ i, i < v.count → v.mints i ≠ 0) ∧
  (∀ i, i < MAX_POKEMON_SLOTS → v.count ≤ i → v.mints i = 0) ∧
  (∀ i, i < v.count → ∀ j, j < v.count → i ≠ j → v.mints i ≠ v.mints j)

/-- Detects a `CaughtPokemon` event in an emitted event list. -/
def emitsCatch (evs : List GameEvent) : Bool :=
  evs.any fun e => match e with
    | .CaughtPokemon _ _ _ _ => true
    | _ => false

/-- Detects an `NftAwarded` event for a given mint. -/
def emitsAward (evs : List GameEvent) (mint : Nat) : Bool :=
  evs.any fun e => match e with
    | .NftAwarded _ m _ => m == mint
    | _ => false

/-- A derivation reads only bytes in `[lo, hi)`: blobs that agree there
yield the same value. -/
def ReadsOnly (f : (Nat → Nat) → Nat) (lo hi : Nat) : Prop :=
  ∀ r s : Nat → Nat, (∀ i, lo ≤ i → i < hi → r i = s i) → f r = f s

/-- Concrete game configuration used in witnesses: default catch rates
and prices, counter already at 1. -/
def cfgC : GameConfig :=
  { authority := 11, treasury := 12, solballs_mint := 13, usdc_mint := 14
    ball_prices := fun t =>
      if t = 0 then 1000000 else if t = 1 then 10000000
      else if t = 2 then 25000000 else 49900000
    catch_rates := fun t =>
      if t = 0 then 2 else if t = 1 then 20 else if t = 2 then 50 else 99
    max_active_pokemon := 20, pokemon_id_counter := 1, total_revenue := 0
    is_initialized := true, vrf_counter := 1 }

/-- Concrete registry: slot 0 holds an active Pokemon (id 1). -/
def slotsOne : PokemonSlots :=
  { slots := fun i =>
      if i = 0 then
        { is_active := true, pokemon_id := 1, pos_x := 10, pos_y := 20
          throw_attempts := 0, spawn_timestamp := 5 }
      else PokemonSlot.empty
    active_count := 1 }

/-- Concrete empty registry. -/
def slotsEmpty : PokemonSlots :=
  { slots := fun _ => PokemonSlot.empty, active_count := 0 }

/-- Concrete vault holding one NFT (mint 5). -/
def vaultOne : NftVault :=
  { authority := 11, mints := fun i => if i = 0 then 5 else 0
    count := 1, max_size := 20 }

/-- Concrete empty vault. -/
def vaultEmpty : NftVault :=
  { authority := 11, mints := fun _ => 0, count := 0, max_size := 20 }

/-- Concrete unfulfilled throw request against slot 0 with ball tier 1. -/
def reqThrow : VrfRequest :=
  { request_type := VRF_TYPE_THROW, player := 77, slot_index := 0
    ball_type := 1, is_fulfilled := false }

/-- Concrete unfulfilled spawn request for slot 1. -/
def reqSpawn : VrfRequest :=
  { request_type := VRF_TYPE_SPAWN, player := 11, slot_index := 1
    ball_type := 0, is_fulfilled := false }

/-- All-zero randomness blob (catch roll 0: a catch for every positive
catch rate). -/
def rZero : Nat → Nat := fun _ => 0

/-- Randomness blob with byte 0 set to 50 (catch roll 50: a miss at
catch rate 20), all other bytes 0. -/
def rMiss : Nat → Nat := fun i => if i = 0 then 50 else 0

/-- Randomness blob with byte 0 set to 1, all other bytes 0. -/
def rOne : Nat → Nat := fun i => if i = 0 then 1 else 0

/-- Concrete game state: one active Pokemon, one vault NFT, pending
throw request, no inventory account supplied. -/
def stThrow : GameState :=
  { game_config := cfgC, pokemon_slots := slotsOne, nft_vault := vaultOne
    player_inventory := none, vrf_request := reqThrow }

/-- Concrete game state: empty slot 1, pending spawn request. -/
def stSpawn : GameState :=
  { game_config := cfgC, pokemon_slots := slotsOne, nft_vault := vaultOne
    player_inventory := none, vrf_request := reqSpawn }

/-- Concrete game state whose throw request is already fulfilled. -/
def stFulfilled : GameState :=
  { stThrow with vrf_request := { reqThrow with is_fulfilled := true } }

/-- Result state of consuming `rMiss` against `stThrow` (a plain miss:
slot 0's `throw_attempts` goes 0 to 1, request marked fulfilled). -/
def stThrowMissedState : GameState :=
  { stThrow with
      pokemon_slots :=
        { slots := Function.update slotsOne.slots 0
            { is_active := true, pokemon_id := 1, pos_x := 10, pos_y := 20
              throw_attempts := 1, spawn_timestamp := 5 }
          active_count := 1 }
      vrf_request := { reqThrow with is_fulfilled := true } }

/-- Concrete game state like `stThrow`, but slot 0 already has
`throw_attempts = 2` (one miss away from relocation). -/
def stThrow2 : GameState :=
  { game_config := cfgC
    pokemon_slots :=
      { slots := fun i =>
          if i = 0 then
            { is_active := true, pokemon_id := 1, pos_x := 10, pos_y := 20
              throw_attempts := 2, spawn_timestamp := 5 }
          else PokemonSlot.empty
        active_count := 1 }
    nft_vault := vaultOne, player_inventory := none
    vrf_request := reqThrow }

/-- Boolean success test on `Except`. -/
def exOk {ε α : Type} (e : Except ε α) : Bool :=
  match e with
  | .ok _ => true
  | .error _ => false

/-- Result state of consuming `rMiss` against `stThrow2`: the third
miss relocates slot 0 to (0, 0) and resets its attempts. -/
def stThrow2RelocState : GameState :=
  { stThrow2 with
      pokemon_slots :=
        { slots := Function.update stThrow2.pokemon_slots.slots 0
            { is_active := true, pokemon_id := 1, pos_x := 0, pos_y := 0
              throw_attempts := 0, spawn_timestamp := 5 }
          active_count := 1 }
      vrf_request := { reqThrow with is_fulfilled := true } }

/-- Result state of consuming `rZero` against `stThrow` (a catch with
no transfer accounts supplied): the vault loses mint 5, slot 0 is
cleared, the request marked fulfilled. -/
def stThrowCaughtState : GameState :=
  { stThrow with
      nft_vault := { vaultOne with
        mints := removeMintAt vaultOne.mints 1 0, count := 0 }
      pokemon_slots :=
        { slots := Function.update slotsOne.slots 0 PokemonSlot.empty
          active_count := 0 }
      vrf_request := { reqThrow with is_fulfilled := true } }

/-- Concrete game state with a pending throw request against slot 0
while slot 0 is empty and `active_count = 0` (the Pokemon was caught
or despawned between the throw request and its consume). -/
def stThrowInactive : GameState :=
  { game_config := cfgC, pokemon_slots := slotsEmpty
    nft_vault := vaultOne, player_inventory := none
    vrf_request := reqThrow }

/-- Result state of consuming `rZero` against `stThrowInactive`: a
catch against the empty slot still removes mint 5 from the vault,
rewrites the already-empty slot with the default, and leaves
`active_count` at 0 (saturating decrement). -/
def stInactiveCaughtState : GameState :=
  { stThrowInactive with
      nft_vault := { vaultOne with
        mints := removeMintAt vaultOne.mints 1 0, count := 0 }
      pokemon_slots :=
        { slots := Function.update slotsEmpty.slots 0 PokemonSlot.empty
          active_count := 0 }
      vrf_request := { reqThrow with is_fulfilled := true } }

/-- Concrete game state whose spawn consume would overflow the
`pokemon_id_counter`. -/
def stSpawnMaxId : GameState :=
  { stSpawn with game_config := { cfgC with pokemon_id_counter := U64_MAX } }

/-- Concrete configuration whose `vrf_counter` is at the `u64` cap. -/
def cfgMaxVrf : GameConfig := { cfgC with vrf_counter := U64_MAX }

/-- Concrete inventory with `total_catches` at the `u64` cap. -/
def invMaxCatches : PlayerInventory :=
  { player := 77, balls := fun _ => 0, total_purchased := 0
    total_throws := 0, total_catches := U64_MAX }

/-- Concrete throw state (empty vault) whose catch would overflow
`total_catches`. -/
def stThrowMaxCatches : GameState :=
  { stThrow with nft_vault := vaultEmpty
                 player_inventory := some invMaxCatches }

/-- Concrete configuration pricing every tier at the `u64` cap. -/
def cfgBigPrice : GameConfig :=
  { cfgC with ball_prices := fun _ => U64_MAX }

/-- Concrete fresh inventory for a registered player. -/
def invFresh : PlayerInventory :=
  { player := 77, balls := fun _ => 0, total_purchased := 0
    total_throws := 0, total_catches := 0 }

/-- Vault obtained by depositing mint 5 into `vaultOne` again: mint 5
now appears twice. -/
def vaultDup : NftVault :=
  { vaultOne with mints := Function.update vaultOne.mints 1 5, count := 2 }

/-- Vault obtained by depositing the fresh mint 7 into `vaultOne`. -/
def vaultDep7 : NftVault :=
  { vaultOne with mints := Function.update vaultOne.mints 1 7, count := 2 }

/-- Vault obtained by withdrawing index 0 from `vaultOne`. -/
def vaultAfterWithdraw : NftVault :=
  { vaultOne with mints := removeMintAt vaultOne.mints 1 0, count := 0 }

/-- Concrete state with a pending spawn request for slot 0 while slot
0 is already occupied (force-spawned between request and consume). -/
def stSpawnClash : GameState :=
  { game_config := cfgC, pokemon_slots := slotsOne, nft_vault := vaultOne
    player_inventory := none
    vrf_request := { request_type := VRF_TYPE_SPAWN, player := 11
                     slot_index := 0, ball_type := 0, is_fulfilled := false } }

/-- Result of consuming `rZero` against `stSpawnClash`: slot 0 is
overwritten and `active_count` incremented past the true number of
active slots. -/
def stSpawnClashRes : GameState :=
  { stSpawnClash with
      game_config := { cfgC with pokemon_id_counter := 2 }
      pokemon_slots :=
        { slots := Function.update slotsOne.slots 0
            { is_active := true, pokemon_id := 2, pos_x := 0, pos_y := 0
              throw_attempts := 0, spawn_timestamp := 0 }
          active_count := 2 }
      vrf_request := { stSpawnClash.vrf_request with is_fulfilled := true } }

/-- Registry with slot 1 active and `active_count = 1`. -/
def slotsGhost : PokemonSlots :=
  { slots := fun i =>
      if i = 1 then
        { is_active := true, pokemon_id := 1, pos_x := 10, pos_y := 20
          throw_attempts := 0, spawn_timestamp := 5 }
      else PokemonSlot.empty
    active_count := 1 }

/-- Concrete state with a pending throw against the empty slot 0 while
slot 1 is active (empty vault). -/
def stThrowGhost : GameState :=
  { game_config := cfgC, pokemon_slots := slotsGhost
    nft_vault := vaultEmpty, player_inventory := none
    vrf_request := reqThrow }

/-- Result of consuming the catching blob `rZero` against
`stThrowGhost`: the empty slot is cleared again and `active_count`
drops to 0 although slot 1 is still active. -/
def stThrowGhostRes : GameState :=
  { stThrowGhost with
      pokemon_slots :=
        { slots := Function.update slotsGhost.slots 0 PokemonSlot.empty
          active_count := 0 }
      vrf_request := { reqThrow with is_fulfilled := true } }

/-- Result of consuming `rZero` against `stSpawn` (spawn into the
empty slot 1). -/
def stSpawnRes : GameState :=
  { stSpawn with
      game_config := { cfgC with pokemon_id_counter := 2 }
      pokemon_slots :=
        { slots := Function.update slotsOne.slots 1
            { is_active := true, pokemon_id := 2, pos_x := 0, pos_y := 0
              throw_attempts := 0, spawn_timestamp := 0 }
          active_count := 2 }
      vrf_request := { reqSpawn with is_fulfilled := true } }

/-- Precondition that the optional player inventory can absorb one
more catch without `u64` overflow. -/
def invCatchOk (o : Option PlayerInventory) : Prop :=
  ∀ inv, o = some inv → inv.total_catches + 1 ≤ U64_MAX

theorem ok_bind {ε α β : Type} (x : α) (g : α → Except ε β) :
    (Except.ok x >>= g : Except ε β) = g x := rfl

theorem error_bind {ε α β : Type} (e : ε) (g : α → Except ε β) :
    (Except.error e >>= g : Except ε β) = Except.error e := rfl

theorem checkedAddU64_bind_ok {a b : Nat} {β : Type}
    {g : Nat → Except GameError β} {out : β}
    (h : (checkedAddU64 a b >>= g) = .ok out) :
    a + b ≤ U64_MAX ∧ g (a + b) = .ok out := by
  by_cases hb : a + b ≤ U64_MAX
  · refine ⟨hb, ?_⟩
    simpa [checkedAddU64, if_pos hb, ok_bind] using h
  · rw [checkedAddU64, if_neg hb, error_bind] at h
    exact absurd h (by simp)

theorem checkedAddU8_bind_ok {a b : Nat} {β : Type}
    {g : Nat → Except GameError β} {out : β}
    (h : (checkedAddU8 a b >>= g) = .ok out) :
    a + b ≤ U8_MAX ∧ g (a + b) = .ok out := by
  by_cases hb : a + b ≤ U8_MAX
  · refine ⟨hb, ?_⟩
    simpa [checkedAddU8, if_pos hb, ok_bind] using h
  · rw [checkedAddU8, if_neg hb, error_bind] at h
    exact absurd h (by simp)

theorem checkedAddU32_bind_ok {a b : Nat} {β : Type}
    {g : Nat → Except GameError β} {out : β}
    (h : (checkedAddU32 a b >>= g) = .ok out) :
    a + b ≤ U32_MAX ∧ g (a + b) = .ok out := by
  by_cases hb : a + b ≤ U32_MAX
  · refine ⟨hb, ?_⟩
    simpa [checkedAddU32, if_pos hb, ok_bind] using h
  · rw [checkedAddU32, if_neg hb, error_bind] at h
    exact absurd h (by simp)

theorem checkedMulU128_bind_ok {a b : Nat} {β : Type}
    {g : Nat → Except GameError β} {out : β}
    (h : (checkedMulU128 a b >>= g) = .ok out) :
    a * b ≤ U128_MAX ∧ g (a * b) = .ok out := by
  by_cases hb : a * b ≤ U128_MAX
  · refine ⟨hb, ?_⟩
    simpa [checkedMulU128, if_pos hb, ok_bind] using h
  · rw [checkedMulU128, if_neg hb, error_bind] at h
    exact absurd h (by simp)

theorem handle_spawn_eq (st : GameState) (r : Nat → Nat) (now : Int)
    (hidx : st.vrf_request.slot_index < MAX_POKEMON_SLOTS)
    (hpid : st.game_config.pokemon_id_counter + 1 ≤ U64_MAX)
    (hac : st.pokemon_slots.active_count + 1 ≤ U8_MAX) :
    handle_spawn st r now = .ok
      ({ st with
          game_config := { st.game_config with
            pokemon_id_counter := st.game_config.pokemon_id_counter + 1 }
          pokemon_slots :=
            { slots := Function.update st.pokemon_slots.slots
                st.vrf_request.slot_index
                { is_active := true
                  pokemon_id := st.game_config.pokemon_id_counter + 1
                  pos_x := spawnPosX r, pos_y := spawnPosY r
                  throw_attempts := 0, spawn_timestamp := now }
              active_count := st.pokemon_slots.active_count + 1 }
          vrf_request := { st.vrf_request with is_fulfilled := true } },
       [.PokemonSpawned (st.game_config.pokemon_id_counter + 1)
          st.vrf_request.slot_index (spawnPosX r) (spawnPosY r)]) := by
  simp only [handle_spawn, checkedAddU64, checkedAddU8, if_pos hidx,
    if_pos hpid, ok_bind, if_pos hac]

theorem handle_throw_caught_eq (st : GameState) (r : Nat → Nat)
    (remaining : List TransferGroup)
    (hidx : st.vrf_request.slot_index < MAX_POKEMON_SLOTS)
    (hball : st.vrf_request.ball_type < NUM_BALL_TYPES)
    (hcatch : catchRoll r <
      st.game_config.catch_rates st.vrf_request.ball_type)
    (v' : NftVault) (aw : Nat) (aevs : List GameEvent)
    (hav : awardStep st.nft_vault st.vrf_request.player r remaining
      = .ok (v', aw, aevs))
    (inv' : Option PlayerInventory)
    (hinv : catchInventoryStep st.player_inventory = .ok inv') :
    handle_throw st r remaining = .ok
      ({ st with
          nft_vault := v'
          player_inventory := inv'
          pokemon_slots :=
            { slots := Function.update st.pokemon_slots.slots
                st.vrf_request.slot_index PokemonSlot.empty
              active_count := st.pokemon_slots.active_count - 1 }
          vrf_request := { st.vrf_request with is_fulfilled := true } },
       aevs ++ [.CaughtPokemon st.vrf_request.player
          (st.pokemon_slots.slots st.vrf_request.slot_index).pokemon_id
          st.vrf_request.slot_index aw]) := by
  simp only [handle_throw, if_pos hidx, if_pos hball, if_pos hcatch, hav,
    ok_bind, hinv]

theorem handle_throw_relocate_eq (st : GameState) (r : Nat → Nat)
    (remaining : List TransferGroup)
    (hidx : st.vrf_request.slot_index < MAX_POKEMON_SLOTS)
    (hball : st.vrf_request.ball_type < NUM_BALL_TYPES)
    (hmiss : ¬ catchRoll r <
      st.game_config.catch_rates st.vrf_request.ball_type)
    (hta : (st.pokemon_slots.slots st.vrf_request.slot_index).throw_attempts
      + 1 ≤ U8_MAX)
    (hmax : MAX_THROW_ATTEMPTS ≤
      (st.pokemon_slots.slots st.vrf_request.slot_index).throw_attempts + 1) :
    handle_throw st r remaining = .ok
      ({ st with
          pokemon_slots :=
            { slots := Function.update st.pokemon_slots.slots
                st.vrf_request.slot_index
                { st.pokemon_slots.slots st.vrf_request.slot_index with
                    pos_x := relocX r, pos_y := relocY r
                    throw_attempts := 0 }
              active_count := st.pokemon_slots.active_count }
          vrf_request := { st.vrf_request with is_fulfilled := true } },
       [.PokemonRelocated
          (st.pokemon_slots.slots st.vrf_request.slot_index).pokemon_id
          st.vrf_request.slot_index
          (st.pokemon_slots.slots st.vrf_request.slot_index).pos_x
          (st.pokemon_slots.slots st.vrf_request.slot_index).pos_y
          (relocX r) (relocY r),
        .FailedCatch st.vrf_request.player
          (st.pokemon_slots.slots st.vrf_request.slot_index).pokemon_id
          st.vrf_request.slot_index MAX_THROW_ATTEMPTS]) := by
  simp only [handle_throw, if_pos hidx, if_pos hball, if_neg hmiss,
    checkedAddU8, if_pos hta, ok_bind, if_pos hmax]

theorem handle_throw_missNormal_eq (st : GameState) (r : Nat → Nat)
    (remaining : List TransferGroup)
    (hidx : st.vrf_request.slot_index < MAX_POKEMON_SLOTS)
    (hball : st.vrf_request.ball_type < NUM_BALL_TYPES)
    (hmiss : ¬ catchRoll r <
      st.game_config.catch_rates st.vrf_request.ball_type)
    (hlt : (st.pokemon_slots.slots st.vrf_request.slot_index).throw_attempts
      + 1 < MAX_THROW_ATTEMPTS) :
    handle_throw st r remaining = .ok
      ({ st with
          pokemon_slots :=
            { slots := Function.update st.pokemon_slots.slots
                st.vrf_request.slot_index
                { st.pokemon_slots.slots st.vrf_request.slot_index with
                    throw_attempts :=
                      (st.pokemon_slots.slots
                        st.vrf_request.slot_index).throw_attempts + 1 }
              active_count := st.pokemon_slots.active_count }
          vrf_request := { st.vrf_request with is_fulfilled := true } },
       [.FailedCatch st.vrf_request.player
          (st.pokemon_slots.slots st.vrf_request.slot_index).pokemon_id
          st.vrf_request.slot_index
          (MAX_THROW_ATTEMPTS -
            ((st.pokemon_slots.slots
              st.vrf_request.slot_index).throw_attempts + 1))]) := by
  have h255 : (st.pokemon_slots.slots
      st.vrf_request.slot_index).throw_attempts + 1 ≤ U8_MAX := by
    simp only [MAX_THROW_ATTEMPTS] at hlt
    simp only [U8_MAX]
    omega
  have hnot : ¬ MAX_THROW_ATTEMPTS ≤
      (st.pokemon_slots.slots st.vrf_request.slot_index).throw_attempts + 1 :=
    not_le.mpr hlt
  simp only [handle_throw, if_pos hidx, if_pos hball, if_neg hmiss,
    checkedAddU8, if_pos h255, ok_bind, if_neg hnot]

theorem awardStep_empty (v : NftVault) (player : Nat) (r : Nat → Nat)
    (remaining : List TransferGroup) (h : v.count = 0) :
    awardStep v player r remaining = .ok (v, 0, []) := by
  simp [awardStep, h]

theorem awardStep_noMatch (v : NftVault) (player : Nat) (r : Nat → Nat)
    (remaining : List TransferGroup) (h : 0 < v.count)
    (hfind : remaining.find?
      (fun g => g.mint == v.mints (nftSelIndex r v.count)) = none) :
    awardStep v player r remaining = .ok
      ({ v with mints := removeMintAt v.mints v.count (nftSelIndex r v.count)
                count := v.count - 1 },
       v.mints (nftSelIndex r v.count),
       [.NftAwarded player (v.mints (nftSelIndex r v.count)) (v.count - 1)]) := by
  simp only [awardStep, if_pos h, hfind]

theorem awardStep_match (v : NftVault) (player : Nat) (r : Nat → Nat)
    (remaining : List TransferGroup) (h : 0 < v.count)
    (g : TransferGroup)
    (hfind : remaining.find?
      (fun g => g.mint == v.mints (nftSelIndex r v.count)) = some g)
    (hown : g.vault_ata_token_owned && g.player_ata_token_owned) :
    awardStep v player r remaining = .ok
      ({ v with mints := removeMintAt v.mints v.count (nftSelIndex r v.count)
                count := v.count - 1 },
       v.mints (nftSelIndex r v.count),
       [.NftAwarded player (v.mints (nftSelIndex r v.count)) (v.count - 1)]) := by
  simp only [awardStep, if_pos h, hfind, if_pos hown]

theorem awardStep_ok_cases (v : NftVault) (player : Nat) (r : Nat → Nat)
    (remaining : List TransferGroup) (v' : NftVault) (aw : Nat)
    (aevs : List GameEvent)
    (h : awardStep v player r remaining = .ok (v', aw, aevs)) :
    (v.count = 0 ∧ v' = v ∧ aw = 0 ∧ aevs = []) ∨
    (0 < v.count ∧
      v' = { v with
              mints := removeMintAt v.mints v.count (nftSelIndex r v.count)
              count := v.count - 1 } ∧
      aw = v.mints (nftSelIndex r v.count) ∧
      aevs = [.NftAwarded player aw (v.count - 1)]) := by
  by_cases hc : 0 < v.count
  · right
    simp only [awardStep, if_pos hc] at h
    rcases hfind : remaining.find?
        (fun g => g.mint == v.mints (nftSelIndex r v.count)) with _ | g
    · simp only [hfind, Except.ok.injEq, Prod.mk.injEq] at h
      obtain ⟨h1, h2, h3⟩ := h
      exact ⟨hc, h1.symm, h2.symm, by rw [← h3, ← h2]⟩
    · simp only [hfind] at h
      by_cases hown : g.vault_ata_token_owned && g.player_ata_token_owned
      · simp only [if_pos hown, Except.ok.injEq, Prod.mk.injEq] at h
        obtain ⟨h1, h2, h3⟩ := h
        exact ⟨hc, h1.symm, h2.symm, by rw [← h3, ← h2]⟩
      · rw [if_neg hown] at h
        exact absurd h (by simp)
  · left
    simp only [awardStep, if_neg hc, Except.ok.injEq, Prod.mk.injEq] at h
    exact ⟨by omega, h.1.symm, h.2.1.symm, h.2.2.symm⟩

theorem catchInventoryStep_none :
    catchInventoryStep none = .ok none := rfl

theorem catchInventoryStep_some (inv : PlayerInventory)
    (h : inv.total_catches + 1 ≤ U64_MAX) :
    catchInventoryStep (some inv)
      = .ok (some { inv with total_catches := inv.total_catches + 1 }) := by
  simp [catchInventoryStep, checkedAddU64, if_pos h, ok_bind]

theorem consume_already_fulfilled (st : GameState)
    (oracle : Option (Nat → Nat)) (remaining : List TransferGroup)
    (now : Int) (h : st.vrf_request.is_fulfilled = true) :
    consume_randomness st oracle remaining now = .error .VrfAlreadyFulfilled := by
  simp [consume_randomness, h]

theorem consume_not_ready (st : GameState) (remaining : List TransferGroup)
    (now : Int) (h : st.vrf_request.is_fulfilled = false) :
    consume_randomness st none remaining now = .error .VrfNotFulfilled := by
  simp [consume_randomness, h]

theorem consume_eq_spawn (st : GameState) (r : Nat → Nat)
    (remaining : List TransferGroup) (now : Int)
    (h : st.vrf_request.is_fulfilled = false)
    (ht : st.vrf_request.request_type = VRF_TYPE_SPAWN) :
    consume_randomness st (some r) remaining now = handle_spawn st r now := by
  simp [consume_randomness, h, ht]

theorem consume_eq_throw (st : GameState) (r : Nat → Nat)
    (remaining : List TransferGroup) (now : Int)
    (h : st.vrf_request.is_fulfilled = false)
    (ht : st.vrf_request.request_type = VRF_TYPE_THROW) :
    consume_randomness st (some r) remaining now
      = handle_throw st r remaining := by
  simp [consume_randomness, h, ht]

theorem bind_ok_inv {ε α β : Type} {e : Except ε α} {g : α → Except ε β}
    {out : β} (h : (e >>= g) = .ok out) : ∃ a, e = .ok a ∧ g a = .ok out := by
  cases e with
  | error err => rw [error_bind] at h; exact absurd h (by simp)
  | ok a => exact ⟨a, rfl, h⟩

theorem handle_spawn_ok_fulfilled (st : GameState) (r : Nat → Nat) (now : Int)
    (out : GameState × List GameEvent) (h : handle_spawn st r now = .ok out) :
    out.1.vrf_request.is_fulfilled = true := by
  simp only [handle_spawn] at h
  by_cases hidx : st.vrf_request.slot_index < MAX_POKEMON_SLOTS
  · rw [if_pos hidx] at h
    obtain ⟨pid, hpid, h⟩ := bind_ok_inv h
    obtain ⟨ac, hac, h⟩ := bind_ok_inv h
    cases h
    rfl
  · rw [if_neg hidx] at h
    exact absurd h (by simp)

theorem handle_throw_ok_fulfilled (st : GameState) (r : Nat → Nat)
    (remaining : List TransferGroup) (out : GameState × List GameEvent)
    (h : handle_throw st r remaining = .ok out) :
    out.1.vrf_request.is_fulfilled = true := by
  simp only [handle_throw] at h
  by_cases hidx : st.vrf_request.slot_index < MAX_POKEMON_SLOTS
  · rw [if_pos hidx] at h
    by_cases hball : st.vrf_request.ball_type < NUM_BALL_TYPES
    · rw [if_pos hball] at h
      by_cases hcatch : catchRoll r <
          st.game_config.catch_rates st.vrf_request.ball_type
      · rw [if_pos hcatch] at h
        obtain ⟨trip, htrip, h⟩ := bind_ok_inv h
        obtain ⟨v', aw, aevs⟩ := trip
        obtain ⟨inv', hinv, h⟩ := bind_ok_inv h
        cases h
        rfl
      · rw [if_neg hcatch] at h
        obtain ⟨ta, hta, h⟩ := bind_ok_inv h
        by_cases hmax : MAX_THROW_ATTEMPTS ≤ ta
        · rw [if_pos hmax] at h
          cases h
          rfl
        · rw [if_neg hmax] at h
          cases h
          rfl
    · rw [if_neg hball] at h
      exact absurd h (by simp)
  · rw [if_neg hidx] at h
    exact absurd h (by simp)

/-- C1: `consume_randomness` succeeds at most once per `VrfRequest`.
The `is_fulfilled` guard is an Anchor account constraint evaluated
before the handler body, so a request already fulfilled fails with
`VrfAlreadyFulfilled` before any mutation (an error leaves all state —
slots, vault, config, inventories — unchanged in this embedding, as a
failed Solana instruction rolls back); a consume whose oracle record
cannot be decoded as fulfilled fails with `VrfNotFulfilled`, also
without mutating; and any successful consume sets `is_fulfilled`, so
every later consume of the same request fails with
`VrfAlreadyFulfilled`. -/
theorem consume_randomness_at_most_once (st : GameState)
    (oracle : Option (Nat → Nat)) (remaining : List TransferGroup)
    (now : Int) :
    (st.vrf_request.is_fulfilled = true →
      consume_randomness st oracle remaining now
        = .error .VrfAlreadyFulfilled) ∧
    (st.vrf_request.is_fulfilled = false → oracle = none →
      consume_randomness st oracle remaining now
        = .error .VrfNotFulfilled) ∧
    (∀ out, consume_randomness st oracle remaining now = .ok out →
      out.1.vrf_request.is_fulfilled = true ∧
      ∀ oracle2 remaining2 now2,
        consume_randomness out.1 oracle2 remaining2 now2
          = .error .VrfAlreadyFulfilled) := by
  refine ⟨fun h => consume_already_fulfilled st oracle remaining now h,
    fun h ho => ho ▸ consume_not_ready st remaining now h, ?_⟩
  intro out h
  have hful : out.1.vrf_request.is_fulfilled = true := by
    unfold consume_randomness at h
    by_cases hf : st.vrf_request.is_fulfilled = true
    · rw [if_pos hf] at h
      exact absurd h (by simp)
    · rw [if_neg hf] at h
      rcases oracle with _ | r
      · exact absurd h (by simp)
      · simp only at h
        by_cases h0 : st.vrf_request.request_type = VRF_TYPE_SPAWN
        · rw [if_pos h0] at h
          exact handle_spawn_ok_fulfilled st r now out h
        · rw [if_neg h0] at h
          by_cases h1 : st.vrf_request.request_type = VRF_TYPE_THROW
          · rw [if_pos h1] at h
            exact handle_throw_ok_fulfilled st r remaining out h
          · rw [if_neg h1] at h
            exact absurd h (by simp)
  exact ⟨hful, fun o2 r2 n2 => consume_already_fulfilled out.1 o2 r2 n2 hful⟩

/-- Witness for C1 at concrete inputs: an already-fulfilled request
fails with `VrfAlreadyFulfilled`; an unfulfilled request with an
undecodable oracle record fails with `VrfNotFulfilled`; and after a
successful consume of `stThrow` (a plain miss), consuming the same
request again fails with `VrfAlreadyFulfilled`. -/
theorem consume_randomness_at_most_once_witness :
    consume_randomness stFulfilled (some rZero) [] 0
      = .error .VrfAlreadyFulfilled ∧
    consume_randomness stThrow none [] 0 = .error .VrfNotFulfilled ∧
    consume_randomness stThrowMissedState (some rZero) [] 0
      = .error .VrfAlreadyFulfilled :=
  ⟨(consume_randomness_at_most_once stFulfilled (some rZero) [] 0).1 rfl,
   (consume_randomness_at_most_once stThrow none [] 0).2.1 rfl rfl,
   ((consume_randomness_at_most_once stThrow (some rMiss) [] 0).2.2
      (stThrowMissedState,
        [.FailedCatch 77 1 0 2]) (by rfl)).2 (some rZero) [] 0⟩

/-- C5: for every valid ball tier and every 64-byte randomness blob,
the throw handler's catch roll is the little-endian `u64` of bytes
`[0..8]` reduced mod 100 (a genuine `u64`: below `2^64` for byte
inputs), and a `CaughtPokemon` event is emitted if and only if that
roll is strictly below `catch_rates[tier]`. -/
theorem throw_catch_rule (st : GameState) (r : Nat → Nat)
    (remaining : List TransferGroup) (hblob : IsByteBlob r)
    (hball : st.vrf_request.ball_type < NUM_BALL_TYPES) :
    catchRoll r = leU64at r 0 % 100 ∧
    leU64at r 0 ≤ U64_MAX ∧
    (∀ out, handle_throw st r remaining = .ok out →
      (emitsCatch out.2 = true ↔
        catchRoll r < st.game_config.catch_rates st.vrf_request.ball_type)) := by
  refine ⟨rfl, ?_, ?_⟩
  · have h0 := hblob 0 (by norm_num)
    have h1 := hblob 1 (by norm_num)
    have h2 := hblob 2 (by norm_num)
    have h3 := hblob 3 (by norm_num)
    have h4 := hblob 4 (by norm_num)
    have h5 := hblob 5 (by norm_num)
    have h6 := hblob 6 (by norm_num)
    have h7 := hblob 7 (by norm_num)
    simp [leU64at, U64_MAX]
    omega
  · intro out h
    simp only [handle_throw] at h
    by_cases hidx : st.vrf_request.slot_index < MAX_POKEMON_SLOTS
    · rw [if_pos hidx, if_pos hball] at h
      by_cases hcatch : catchRoll r <
          st.game_config.catch_rates st.vrf_request.ball_type
      · rw [if_pos hcatch] at h
        obtain ⟨trip, htrip, h⟩ := bind_ok_inv h
        obtain ⟨v', aw, aevs⟩ := trip
        obtain ⟨inv', hinv, h⟩ := bind_ok_inv h
        cases h
        simp [emitsCatch, hcatch]
      · rw [if_neg hcatch] at h
        obtain ⟨ta, hta, h⟩ := bind_ok_inv h
        by_cases hmax : MAX_THROW_ATTEMPTS ≤ ta
        · rw [if_pos hmax] at h
          cases h
          simp [emitsCatch, hcatch]
        · rw [if_neg hmax] at h
          cases h
          simp [emitsCatch, hcatch]
    · rw [if_neg hidx] at h
      exact absurd h (by simp)

/-- Witness for C5: consuming `rMiss` (roll 50) against `stThrow`
(tier 1, catch rate 20) emits no catch event, matching 50 < 20 being
false. -/
theorem throw_catch_rule_witness :
    emitsCatch [GameEvent.FailedCatch 77 1 0 2] = true ↔
      catchRoll rMiss <
        stThrow.game_config.catch_rates stThrow.vrf_request.ball_type :=
  (throw_catch_rule stThrow rMiss []
    (by unfold IsByteBlob; decide) (by decide)).2.2
    (stThrowMissedState, [.FailedCatch 77 1 0 2]) (by rfl)

/-- C6: a miss against an active slot whose `throw_attempts` is
`MAX_THROW_ATTEMPTS - 1` relocates the Pokemon: the throw succeeds, the
slot's attempts reset to 0, its position becomes
(`bytes[16..18] mod 1000`, `bytes[18..20] mod 1000`) — both at most
`MAX_COORDINATE` — and the slot stays active with the same
`pokemon_id`. -/
theorem throw_relocation_on_exhaustion (st : GameState) (r : Nat → Nat)
    (remaining : List TransferGroup)
    (hidx : st.vrf_request.slot_index < MAX_POKEMON_SLOTS)
    (hball : st.vrf_request.ball_type < NUM_BALL_TYPES)
    (hmiss : ¬ catchRoll r <
      st.game_config.catch_rates st.vrf_request.ball_type)
    (hact : (st.pokemon_slots.slots st.vrf_request.slot_index).is_active
      = true)
    (hta : (st.pokemon_slots.slots st.vrf_request.slot_index).throw_attempts
      = MAX_THROW_ATTEMPTS - 1) :
    exOk (handle_throw st r remaining) = true ∧
    (∀ out, handle_throw st r remaining = .ok out →
      (out.1.pokemon_slots.slots st.vrf_request.slot_index).throw_attempts
        = 0 ∧
      (out.1.pokemon_slots.slots st.vrf_request.slot_index).pos_x
        = relocX r ∧
      (out.1.pokemon_slots.slots st.vrf_request.slot_index).pos_y
        = relocY r ∧
      relocX r ≤ MAX_COORDINATE ∧ relocY r ≤ MAX_COORDINATE ∧
      (out.1.pokemon_slots.slots st.vrf_request.slot_index).is_active
        = true ∧
      (out.1.pokemon_slots.slots st.vrf_request.slot_index).pokemon_id
        = (st.pokemon_slots.slots st.vrf_request.slot_index).pokemon_id ∧
      out.1.pokemon_slots.active_count = st.pokemon_slots.active_count) := by
  have heq := handle_throw_relocate_eq st r remaining hidx hball hmiss
    (by rw [hta]; decide) (by rw [hta]; decide)
  constructor
  · rw [heq]; rfl
  · intro out h
    rw [heq] at h
    cases h
    refine ⟨?_, ?_, ?_, ?_, ?_, ?_, ?_, rfl⟩ <;>
      simp [Function.update_same, hact, Nat.le_of_lt_succ
        (Nat.mod_lt _ (by norm_num)), relocX, relocY]

/-- Witness for C6: slot 0 of `stThrow2` has `throw_attempts = 2`;
consuming the missing blob `rMiss` relocates it to (0, 0) with a fresh
attempt budget, still active with id 1. -/
theorem throw_relocation_on_exhaustion_witness :
    exOk (handle_throw stThrow2 rMiss []) = true ∧
    (stThrow2RelocState.pokemon_slots.slots 0).throw_attempts = 0 ∧
    (stThrow2RelocState.pokemon_slots.slots 0).is_active = true :=
  ⟨(throw_relocation_on_exhaustion stThrow2 rMiss [] (by decide)
      (by decide) (by decide) (by decide) (by decide)).1,
   ((throw_relocation_on_exhaustion stThrow2 rMiss [] (by decide)
      (by decide) (by decide) (by decide) (by decide)).2
      (stThrow2RelocState,
        [.PokemonRelocated 1 0 10 20 0 0, .FailedCatch 77 1 0 3])
      (by rfl)).1,
   (((throw_relocation_on_exhaustion stThrow2 rMiss [] (by decide)
      (by decide) (by decide) (by decide) (by decide)).2
      (stThrow2RelocState,
        [.PokemonRelocated 1 0 10 20 0 0, .FailedCatch 77 1 0 3])
      (by rfl)).2).2.2.2.2.1⟩

/-- C8: a throw consume that misses without exhausting the budget
(post-increment attempts below `MAX_THROW_ATTEMPTS`) succeeds and
changes nothing except that slot's `throw_attempts` (incremented by
one) and the request's `is_fulfilled` flag: position, id, activity and
timestamp of the slot, every other slot, `active_count`, the vault, the
config and the player inventory are untouched. -/
theorem throw_miss_frame (st : GameState) (r : Nat → Nat)
    (remaining : List TransferGroup) (now : Int)
    (htype : st.vrf_request.request_type = VRF_TYPE_THROW)
    (hful : st.vrf_request.is_fulfilled = false)
    (hidx : st.vrf_request.slot_index < MAX_POKEMON_SLOTS)
    (hball : st.vrf_request.ball_type < NUM_BALL_TYPES)
    (hmiss : ¬ catchRoll r <
      st.game_config.catch_rates st.vrf_request.ball_type)
    (hlt : (st.pokemon_slots.slots st.vrf_request.slot_index).throw_attempts
      + 1 < MAX_THROW_ATTEMPTS) :
    exOk (consume_randomness st (some r) remaining now) = true ∧
    (∀ out, consume_randomness st (some r) remaining now = .ok out →
      out.1.game_config = st.game_config ∧
      out.1.nft_vault = st.nft_vault ∧
      out.1.player_inventory = st.player_inventory ∧
      out.1.pokemon_slots.active_count = st.pokemon_slots.active_count ∧
      (∀ j, j ≠ st.vrf_request.slot_index →
        out.1.pokemon_slots.slots j = st.pokemon_slots.slots j) ∧
      (out.1.pokemon_slots.slots st.vrf_request.slot_index).is_active
        = (st.pokemon_slots.slots st.vrf_request.slot_index).is_active ∧
      (out.1.pokemon_slots.slots st.vrf_request.slot_index).pokemon_id
        = (st.pokemon_slots.slots st.vrf_request.slot_index).pokemon_id ∧
      (out.1.pokemon_slots.slots st.vrf_request.slot_index).pos_x
        = (st.pokemon_slots.slots st.vrf_request.slot_index).pos_x ∧
      (out.1.pokemon_slots.slots st.vrf_request.slot_index).pos_y
        = (st.pokemon_slots.slots st.vrf_request.slot_index).pos_y ∧
      (out.1.pokemon_slots.slots st.vrf_request.slot_index).spawn_timestamp
        = (st.pokemon_slots.slots st.vrf_request.slot_index).spawn_timestamp ∧
      (out.1.pokemon_slots.slots st.vrf_request.slot_index).throw_attempts
        = (st.pokemon_slots.slots st.vrf_request.slot_index).throw_attempts
          + 1 ∧
      out.1.vrf_request
        = { st.vrf_request with is_fulfilled := true }) := by
  have heq : consume_randomness st (some r) remaining now
      = handle_throw st r remaining := consume_eq_throw st r remaining now hful htype
  have hthrow := handle_throw_missNormal_eq st r remaining hidx hball hmiss hlt
  rw [heq, hthrow]
  refine ⟨rfl, ?_⟩
  intro out h
  cases h
  refine ⟨rfl, rfl, rfl, rfl, ?_, ?_, ?_, ?_, ?_, ?_, ?_, rfl⟩
  · intro j hj
    exact Function.update_noteq hj _ _
  all_goals simp [Function.update_same]

/-- Witness for C8: the miss of `rMiss` against `stThrow` (attempts 0
to 1) leaves config, vault, inventory and `active_count` unchanged. -/
theorem throw_miss_frame_witness :
    exOk (consume_randomness stThrow (some rMiss) [] 0) = true ∧
    stThrowMissedState.game_config = stThrow.game_config ∧
    stThrowMissedState.pokemon_slots.active_count
      = stThrow.pokemon_slots.active_count ∧
    (stThrowMissedState.pokemon_slots.slots 0).throw_attempts
      = (stThrow.pokemon_slots.slots 0).throw_attempts + 1 := by
  have h := throw_miss_frame stThrow rMiss [] 0 rfl rfl (by decide)
    (by decide) (by decide) (by decide)
  have h2 := h.2 (stThrowMissedState, [.FailedCatch 77 1 0 2]) (by rfl)
  exact ⟨h.1, h2.1, h2.2.2.2.1, h2.2.2.2.2.2.2.2.2.2.2.1⟩

theorem catchInventoryStep_of_ok (o : Option PlayerInventory)
    (h : invCatchOk o) : ∃ inv', catchInventoryStep o = .ok inv' := by
  cases o with
  | none => exact ⟨none, rfl⟩
  | some inv =>
    exact ⟨some { inv with total_catches := inv.total_catches + 1 },
      catchInventoryStep_some inv (h inv rfl)⟩

theorem removeMintAt_prefix_ne (m : Nat → Nat) (count idx : Nat)
    (hidx : idx < count)
    (hinj : ∀ i, i < count → ∀ j, j < count → i ≠ j → m i ≠ m j) :
    ∀ i, i < count - 1 → removeMintAt m count idx i ≠ m idx := by
  intro i hi
  have hcount : 0 < count := Nat.lt_of_le_of_lt (Nat.zero_le idx) hidx
  simp only [removeMintAt]
  rw [Function.update_noteq (by omega : i ≠ count - 1)]
  by_cases hl : idx = count - 1
  · rw [if_neg (by simpa using hl)]
    exact hinj i (by omega) idx hidx (by omega)
  · rw [if_pos (by simpa using hl)]
    by_cases hix : i = idx
    · subst hix
      rw [Function.update_same]
      exact hinj (count - 1) (by omega) i (by omega) (by omega)
    · rw [Function.update_noteq hix]
      exact hinj i (by omega) idx hidx hix

/-- C3: in a throw consume that catches while the vault is non-empty,
the selected mint is removed from the vault (swap-with-last, `count`
decremented) before any custody transfer; and when no
`remaining_accounts` group matches the selected mint, the consume
still succeeds, the removal persists (the awarded mint is gone from
the live prefix) and an `NftAwarded` event is emitted — the removal is
not rolled back. -/
theorem award_removal_persists (st : GameState) (r : Nat → Nat)
    (remaining : List TransferGroup)
    (hidx : st.vrf_request.slot_index < MAX_POKEMON_SLOTS)
    (hball : st.vrf_request.ball_type < NUM_BALL_TYPES)
    (hcatch : catchRoll r <
      st.game_config.catch_rates st.vrf_request.ball_type)
    (hcount : 0 < st.nft_vault.count)
    (hinj : ∀ i, i < st.nft_vault.count → ∀ j, j < st.nft_vault.count →
      i ≠ j → st.nft_vault.mints i ≠ st.nft_vault.mints j)
    (hinv : invCatchOk st.player_inventory)
    (hfind : remaining.find? (fun g =>
      g.mint == st.nft_vault.mints (nftSelIndex r st.nft_vault.count))
      = none) :
    exOk (handle_throw st r remaining) = true ∧
    (∀ out, handle_throw st r remaining = .ok out →
      out.1.nft_vault.count = st.nft_vault.count - 1 ∧
      out.1.nft_vault.mints = removeMintAt st.nft_vault.mints
        st.nft_vault.count (nftSelIndex r st.nft_vault.count) ∧
      (∀ i, i < out.1.nft_vault.count →
        out.1.nft_vault.mints i
          ≠ st.nft_vault.mints (nftSelIndex r st.nft_vault.count)) ∧
      emitsAward out.2
        (st.nft_vault.mints (nftSelIndex r st.nft_vault.count)) = true) := by
  obtain ⟨inv', hinvok⟩ := catchInventoryStep_of_ok st.player_inventory hinv
  have hawd := awardStep_noMatch st.nft_vault st.vrf_request.player r
    remaining hcount hfind
  have heq := handle_throw_caught_eq st r remaining hidx hball hcatch
    _ _ _ hawd inv' hinvok
  rw [heq]
  refine ⟨rfl, ?_⟩
  intro out h
  cases h
  refine ⟨rfl, rfl, ?_, ?_⟩
  · intro i hi
    exact removeMintAt_prefix_ne st.nft_vault.mints st.nft_vault.count
      (nftSelIndex r st.nft_vault.count)
      (Nat.mod_lt _ hcount) hinj i hi
  · simp [emitsAward]

/-- Witness for C3: catching with `rZero` against `stThrow` (vault
holding mint 5, no transfer accounts supplied) succeeds with the vault
emptied. -/
theorem award_removal_persists_witness :
    exOk (handle_throw stThrow rZero []) = true ∧
    stThrowCaughtState.nft_vault.count = stThrow.nft_vault.count - 1 ∧
    emitsAward [GameEvent.NftAwarded 77 5 0, GameEvent.CaughtPokemon 77 1 0 5]
      (stThrow.nft_vault.mints (nftSelIndex rZero stThrow.nft_vault.count))
      = true := by
  have h := award_removal_persists stThrow rZero [] (by decide) (by decide)
    (by decide) (by decide)
    (by intro i hi j hj hne
        simp only [stThrow, vaultOne] at hi hj
        omega)
    (by intro inv h; cases h) rfl
  have h2 := h.2 (stThrowCaughtState,
    [.NftAwarded 77 5 0, .CaughtPokemon 77 1 0 5]) (by rfl)
  exact ⟨h.1, h2.1, h2.2.2.2⟩

theorem readsOnly_outside {f : (Nat → Nat) → Nat} {lo hi : Nat}
    (hf : ReadsOnly f lo hi) (r s : Nat → Nat) (i : Nat)
    (hrs : ∀ j, j ≠ i → r j = s j) (hout : i < lo ∨ hi ≤ i) :
    f r = f s :=
  hf r s (fun j hj1 hj2 => hrs j (by omega))

theorem spawnPosX_readsOnly : ReadsOnly spawnPosX 0 2 := by
  intro r s h
  have e0 := h 0 (Nat.zero_le _) (by norm_num)
  have e1 := h 1 (Nat.zero_le _) (by norm_num)
  simp [spawnPosX, leU16, e0, e1]

theorem spawnPosY_readsOnly : ReadsOnly spawnPosY 2 4 := by
  intro r s h
  have e2 := h 2 (by norm_num) (by norm_num)
  have e3 := h 3 (by norm_num) (by norm_num)
  simp [spawnPosY, leU16, e2, e3]

theorem catchRoll_readsOnly : ReadsOnly catchRoll 0 8 := by
  intro r s h
  have e0 := h 0 (Nat.zero_le _) (by norm_num)
  have e1 := h 1 (Nat.zero_le _) (by norm_num)
  have e2 := h 2 (Nat.zero_le _) (by norm_num)
  have e3 := h 3 (Nat.zero_le _) (by norm_num)
  have e4 := h 4 (Nat.zero_le _) (by norm_num)
  have e5 := h 5 (Nat.zero_le _) (by norm_num)
  have e6 := h 6 (Nat.zero_le _) (by norm_num)
  have e7 := h 7 (Nat.zero_le _) (by norm_num)
  simp [catchRoll, leU64at, e0, e1, e2, e3, e4, e5, e6, e7]

theorem nftSelIndex_readsOnly (c : Nat) :
    ReadsOnly (fun r => nftSelIndex r c) 8 16 := by
  intro r s h
  have e8 := h 8 (by norm_num) (by norm_num)
  have e9 := h 9 (by norm_num) (by norm_num)
  have e10 := h 10 (by norm_num) (by norm_num)
  have e11 := h 11 (by norm_num) (by norm_num)
  have e12 := h 12 (by norm_num) (by norm_num)
  have e13 := h 13 (by norm_num) (by norm_num)
  have e14 := h 14 (by norm_num) (by norm_num)
  have e15 := h 15 (by norm_num) (by norm_num)
  simp [nftSelIndex, leU64at, e8, e9, e10, e11, e12, e13, e14, e15]

theorem relocX_readsOnly : ReadsOnly relocX 16 18 := by
  intro r s h
  have e16 := h 16 (by norm_num) (by norm_num)
  have e17 := h 17 (by norm_num) (by norm_num)
  simp [relocX, leU16, e16, e17]

theorem relocY_readsOnly : ReadsOnly relocY 18 20 := by
  intro r s h
  have e18 := h 18 (by norm_num) (by norm_num)
  have e19 := h 19 (by norm_num) (by norm_num)
  simp [relocY, leU16, e18, e19]

/-- Counterexample to C7 as stated: the four listed sub-derivations are
not pairwise disjoint — `rOne` differs from `rZero` only at byte 0, yet
both the spawn position (bytes `[0..2]`) and the catch roll (bytes
`[0..8]`) change, so byte 0 is read by two of the listed decisions. -/
theorem randomness_ranges_overlap_counterexample :
    rOne = Function.update rZero 0 1 ∧
    spawnPosX rZero ≠ spawnPosX rOne ∧
    catchRoll rZero ≠ catchRoll rOne := by
  refine ⟨?_, by decide, by decide⟩
  funext i
  by_cases hi : i = 0
  · subst hi; rfl
  · rw [Function.update_noteq hi]
    simp [rOne, rZero, hi]

/-- C7 amended: the sub-derivations evaluated within one consume read
pairwise disjoint byte ranges — a spawn consume derives only the spawn
position (x from bytes `[0..2]`, y from `[2..4]`, disjoint), and a
throw consume derives the catch roll from `[0..8]`, the pool-selection
index from `[8..16]` and the relocation position from `[16..18]` and
`[18..20]`, so changing a single byte of the blob changes at most one
of the decisions of that consume; across the two request kinds, the
spawn position range does overlap the catch-roll range (bytes 0-1),
but those derivations are never applied to the same request's blob. -/
theorem randomness_derivations_disjoint :
    ReadsOnly spawnPosX 0 2 ∧ ReadsOnly spawnPosY 2 4 ∧
    ReadsOnly catchRoll 0 8 ∧
    (∀ c, ReadsOnly (fun r => nftSelIndex r c) 8 16) ∧
    ReadsOnly relocX 16 18 ∧ ReadsOnly relocY 18 20 ∧
    (∀ c (r s : Nat → Nat) i, (∀ j, j ≠ i → r j = s j) →
      (catchRoll r ≠ catchRoll s →
        nftSelIndex r c = nftSelIndex s c ∧ relocX r = relocX s ∧
        relocY r = relocY s) ∧
      (nftSelIndex r c ≠ nftSelIndex s c →
        catchRoll r = catchRoll s ∧ relocX r = relocX s ∧
        relocY r = relocY s) ∧
      (relocX r ≠ relocX s ∨ relocY r ≠ relocY s →
        catchRoll r = catchRoll s ∧ nftSelIndex r c = nftSelIndex s c) ∧
      (spawnPosX r ≠ spawnPosX s → spawnPosY r = spawnPosY s) ∧
      (spawnPosY r ≠ spawnPosY s → spawnPosX r = spawnPosX s)) := by
  refine ⟨spawnPosX_readsOnly, spawnPosY_readsOnly, catchRoll_readsOnly,
    nftSelIndex_readsOnly, relocX_readsOnly, relocY_readsOnly, ?_⟩
  intro c r s i hrs
  refine ⟨?_, ?_, ?_, ?_, ?_⟩
  · intro hne
    have hin : i < 8 := by
      by_contra hout
      exact hne (readsOnly_outside catchRoll_readsOnly r s i hrs
        (by omega))
    exact ⟨readsOnly_outside (nftSelIndex_readsOnly c) r s i hrs
        (by omega),
      readsOnly_outside relocX_readsOnly r s i hrs (by omega),
      readsOnly_outside relocY_readsOnly r s i hrs (by omega)⟩
  · intro hne
    have hin : 8 ≤ i ∧ i < 16 := by
      by_contra hout
      exact hne (readsOnly_outside (nftSelIndex_readsOnly c) r s i hrs
        (by omega))
    exact ⟨readsOnly_outside catchRoll_readsOnly r s i hrs (by omega),
      readsOnly_outside relocX_readsOnly r s i hrs (by omega),
      readsOnly_outside relocY_readsOnly r s i hrs (by omega)⟩
  · intro hne
    have hin : 16 ≤ i ∧ i < 20 := by
      rcases hne with hne | hne
      · by_contra hout
        exact hne (readsOnly_outside relocX_readsOnly r s i hrs (by omega))
      · by_contra hout
        exact hne (readsOnly_outside relocY_readsOnly r s i hrs (by omega))
    exact ⟨readsOnly_outside catchRoll_readsOnly r s i hrs (by omega),
      readsOnly_outside (nftSelIndex_readsOnly c) r s i hrs (by omega)⟩
  · intro hne
    have hin : i < 2 := by
      by_contra hout
      exact hne (readsOnly_outside spawnPosX_readsOnly r s i hrs (by omega))
    exact readsOnly_outside spawnPosY_readsOnly r s i hrs (by omega)
  · intro hne
    have hin : 2 ≤ i ∧ i < 4 := by
      by_contra hout
      exact hne (readsOnly_outside spawnPosY_readsOnly r s i hrs (by omega))
    exact readsOnly_outside spawnPosX_readsOnly r s i hrs (by omega)

/-- Witness for the amended C7: `rOne` and `rZero` differ only at byte
0; the catch roll changes (0 versus 1) while the pool selection and
both relocation coordinates are unchanged. -/
theorem randomness_derivations_disjoint_witness :
    nftSelIndex rOne 1 = nftSelIndex rZero 1 ∧
    relocX rOne = relocX rZero ∧ relocY rOne = relocY rZero :=
  (randomness_derivations_disjoint.2.2.2.2.2.2 1 rOne rZero 0
    (by intro j hj; simp [rOne, rZero, hj])).1 (by decide)

/-- C10: `handle_throw` never checks that the target slot is active:
a throw consume against an in-range inactive slot succeeds (no
`SlotNotActive` error); on a catch it still removes and awards a vault
NFT (when the vault is non-empty), resets the already-empty slot to
the default slot value, and decrements `active_count` by truncated
(saturating) subtraction, so a count of 0 stays 0. -/
theorem throw_on_inactive_slot (st : GameState) (r : Nat → Nat)
    (remaining : List TransferGroup) (now : Int)
    (htype : st.vrf_request.request_type = VRF_TYPE_THROW)
    (hful : st.vrf_request.is_fulfilled = false)
    (hidx : st.vrf_request.slot_index < MAX_POKEMON_SLOTS)
    (hball : st.vrf_request.ball_type < NUM_BALL_TYPES)
    (hinact : (st.pokemon_slots.slots st.vrf_request.slot_index).is_active
      = false)
    (hta : (st.pokemon_slots.slots st.vrf_request.slot_index).throw_attempts
      + 1 ≤ U8_MAX)
    (hinv : invCatchOk st.player_inventory)
    (hfind : 0 < st.nft_vault.count → remaining.find? (fun g =>
      g.mint == st.nft_vault.mints (nftSelIndex r st.nft_vault.count))
      = none) :
    exOk (consume_randomness st (some r) remaining now) = true ∧
    (catchRoll r < st.game_config.catch_rates st.vrf_request.ball_type →
      ∀ out, consume_randomness st (some r) remaining now = .ok out →
        out.1.pokemon_slots.slots st.vrf_request.slot_index
          = PokemonSlot.empty ∧
        out.1.pokemon_slots.active_count
          = st.pokemon_slots.active_count - 1 ∧
        (st.pokemon_slots.active_count = 0 →
          out.1.pokemon_slots.active_count = 0) ∧
        (0 < st.nft_vault.count →
          out.1.nft_vault.count = st.nft_vault.count - 1 ∧
          emitsAward out.2 (st.nft_vault.mints
            (nftSelIndex r st.nft_vault.count)) = true)) := by
  have hcons : consume_randomness st (some r) remaining now
      = handle_throw st r remaining :=
    consume_eq_throw st r remaining now hful htype
  rw [hcons]
  by_cases hc : catchRoll r <
      st.game_config.catch_rates st.vrf_request.ball_type
  · obtain ⟨inv', hinvok⟩ := catchInventoryStep_of_ok st.player_inventory hinv
    by_cases hvc : 0 < st.nft_vault.count
    · have hawd := awardStep_noMatch st.nft_vault st.vrf_request.player r
        remaining hvc (hfind hvc)
      have heq := handle_throw_caught_eq st r remaining hidx hball hc
        _ _ _ hawd inv' hinvok
      rw [heq]
      refine ⟨rfl, ?_⟩
      intro _ out h
      cases h
      refine ⟨Function.update_same _ _ _, rfl, fun h0 => by rw [h0], ?_⟩
      exact fun _ => ⟨rfl, by simp [emitsAward]⟩
    · have hawd := awardStep_empty st.nft_vault st.vrf_request.player r
        remaining (by omega)
      have heq := handle_throw_caught_eq st r remaining hidx hball hc
        _ _ _ hawd inv' hinvok
      rw [heq]
      refine ⟨rfl, ?_⟩
      intro _ out h
      cases h
      exact ⟨Function.update_same _ _ _, rfl, fun h0 => by rw [h0],
        fun hpos => absurd hpos hvc⟩
  · by_cases h3 : MAX_THROW_ATTEMPTS ≤
        (st.pokemon_slots.slots st.vrf_request.slot_index).throw_attempts + 1
    · rw [handle_throw_relocate_eq st r remaining hidx hball hc hta h3]
      exact ⟨rfl, fun hc' => absurd hc' hc⟩
    · rw [handle_throw_missNormal_eq st r remaining hidx hball hc
        (by omega)]
      exact ⟨rfl, fun hc' => absurd hc' hc⟩

/-- Witness for C10: consuming `rZero` (a catch) against
`stThrowInactive` (slot 0 empty, `active_count = 0`, vault holding
mint 5) succeeds; the slot stays default, `active_count` stays 0, and
the vault drops to 0. -/
theorem throw_on_inactive_slot_witness :
    exOk (consume_randomness stThrowInactive (some rZero) [] 0) = true ∧
    stInactiveCaughtState.pokemon_slots.slots 0 = PokemonSlot.empty ∧
    stInactiveCaughtState.pokemon_slots.active_count = 0 ∧
    stInactiveCaughtState.nft_vault.count
      = stThrowInactive.nft_vault.count - 1 := by
  have h := throw_on_inactive_slot stThrowInactive rZero [] 0 rfl rfl
    (by decide) (by decide) (by decide) (by decide)
    (by intro inv h; cases h) (fun _ => rfl)
  have h2 := h.2 (by decide) (stInactiveCaughtState,
    [.NftAwarded 77 5 0, .CaughtPokemon 77 0 0 5]) (by rfl)
  exact ⟨h.1, h2.1, h2.2.2.1 rfl, (h2.2.2.2 (by decide)).1⟩

theorem handle_spawn_pid_overflow (st : GameState) (r : Nat → Nat)
    (now : Int) (hidx : st.vrf_request.slot_index < MAX_POKEMON_SLOTS)
    (hc : st.game_config.pokemon_id_counter = U64_MAX) :
    handle_spawn st r now = .error .MathOverflow := by
  simp only [handle_spawn, if_pos hidx, checkedAddU64, hc]
  rw [if_neg (by norm_num), error_bind]

theorem handle_spawn_ac_overflow (st : GameState) (r : Nat → Nat)
    (now : Int) (hidx : st.vrf_request.slot_index < MAX_POKEMON_SLOTS)
    (hcok : st.game_config.pokemon_id_counter + 1 ≤ U64_MAX)
    (hac : st.pokemon_slots.active_count = U8_MAX) :
    handle_spawn st r now = .error .MathOverflow := by
  simp only [handle_spawn, if_pos hidx, checkedAddU64, if_pos hcok, ok_bind,
    checkedAddU8, hac]
  rw [if_neg (by norm_num), error_bind]

theorem spawn_request_vrf_overflow (cfg : GameConfig) (ps : PokemonSlots)
    (idx : Nat) (hidx : idx < MAX_POKEMON_SLOTS)
    (hact : (ps.slots idx).is_active = false)
    (hcap : ps.active_count < cfg.max_active_pokemon)
    (hv : cfg.vrf_counter = U64_MAX) :
    spawn_pokemon_request cfg ps idx = .error .MathOverflow := by
  simp only [spawn_pokemon_request, if_pos hidx, hact, Bool.false_eq_true,
    if_false, if_pos hcap, checkedAddU64, hv]
  rw [if_neg (by norm_num), error_bind]

theorem force_spawn_pid_overflow (cfg : GameConfig) (ps : PokemonSlots)
    (idx px py : Nat) (now : Int) (hidx : idx < MAX_POKEMON_SLOTS)
    (hx : px ≤ MAX_COORDINATE) (hy : py ≤ MAX_COORDINATE)
    (hact : (ps.slots idx).is_active = false)
    (hcap : ps.active_count < cfg.max_active_pokemon)
    (hc : cfg.pokemon_id_counter = U64_MAX) :
    force_spawn_pokemon cfg ps idx px py now = .error .MathOverflow := by
  simp only [force_spawn_pokemon, if_pos hidx, if_pos hx, if_pos hy, hact,
    Bool.false_eq_true, if_false, if_pos hcap, checkedAddU64, hc]
  rw [if_neg (by norm_num), error_bind]

theorem purchase_cost_exceeds_u64 (cfg : GameConfig) (inv : PlayerInventory)
    (balance maxp pk bt qty : Nat) (hb : bt < NUM_BALL_TYPES)
    (hq : 0 < qty) (hmul : cfg.ball_prices bt * qty ≤ U128_MAX)
    (hbig : U64_MAX < cfg.ball_prices bt * qty) :
    purchase_balls cfg inv balance maxp pk bt qty = .error .MathOverflow := by
  simp only [purchase_balls, if_pos hb, if_pos hq, checkedMulU128,
    if_pos hmul, ok_bind]
  rw [if_neg (not_le.mpr hbig)]

theorem purchase_balls_tier_overflow (cfg : GameConfig)
    (inv : PlayerInventory) (balance maxp pk bt qty : Nat)
    (hb : bt < NUM_BALL_TYPES) (hq : 0 < qty)
    (h64 : cfg.ball_prices bt * qty ≤ U64_MAX)
    (hmaxp : cfg.ball_prices bt * qty ≤ maxp)
    (hbal : cfg.ball_prices bt * qty ≤ balance)
    (hp0 : ¬ inv.player = 0)
    (hover : U32_MAX < inv.balls bt + qty) :
    purchase_balls cfg inv balance maxp pk bt qty = .error .MathOverflow := by
  simp only [purchase_balls, if_pos hb, if_pos hq, checkedMulU128,
    if_pos (le_trans h64 (by norm_num : (U64_MAX : Nat) ≤ U128_MAX)), ok_bind, if_pos h64, if_pos hmaxp,
    if_pos hbal, if_neg hp0, checkedAddU32]
  rw [if_neg (not_le.mpr hover), error_bind]

theorem purchase_total_purchased_overflow (cfg : GameConfig)
    (inv : PlayerInventory) (balance maxp pk bt qty : Nat)
    (hb : bt < NUM_BALL_TYPES) (hq : 0 < qty)
    (h64 : cfg.ball_prices bt * qty ≤ U64_MAX)
    (hmaxp : cfg.ball_prices bt * qty ≤ maxp)
    (hbal : cfg.ball_prices bt * qty ≤ balance)
    (hp0 : ¬ inv.player = 0)
    (hballs : inv.balls bt + qty ≤ U32_MAX)
    (hover : U64_MAX < inv.total_purchased + qty) :
    purchase_balls cfg inv balance maxp pk bt qty = .error .MathOverflow := by
  simp only [purchase_balls, if_pos hb, if_pos hq, checkedMulU128,
    if_pos (le_trans h64 (by norm_num : (U64_MAX : Nat) ≤ U128_MAX)), ok_bind, if_pos h64, if_pos hmaxp,
    if_pos hbal, if_neg hp0, checkedAddU32, if_pos hballs, checkedAddU64]
  rw [if_neg (not_le.mpr hover), error_bind]

theorem purchase_revenue_overflow (cfg : GameConfig)
    (inv : PlayerInventory) (balance maxp pk bt qty : Nat)
    (hb : bt < NUM_BALL_TYPES) (hq : 0 < qty)
    (h64 : cfg.ball_prices bt * qty ≤ U64_MAX)
    (hmaxp : cfg.ball_prices bt * qty ≤ maxp)
    (hbal : cfg.ball_prices bt * qty ≤ balance)
    (hp0 : ¬ inv.player = 0)
    (hballs : inv.balls bt + qty ≤ U32_MAX)
    (htp : inv.total_purchased + qty ≤ U64_MAX)
    (hover : U64_MAX < cfg.total_revenue + cfg.ball_prices bt * qty) :
    purchase_balls cfg inv balance maxp pk bt qty = .error .MathOverflow := by
  simp only [purchase_balls, if_pos hb, if_pos hq, checkedMulU128,
    if_pos (le_trans h64 (by norm_num : (U64_MAX : Nat) ≤ U128_MAX)), ok_bind, if_pos h64, if_pos hmaxp,
    if_pos hbal, if_neg hp0, checkedAddU32, if_pos hballs, checkedAddU64,
    if_pos htp]
  rw [if_neg (not_le.mpr hover), error_bind]

theorem purchase_balls_eq (cfg : GameConfig) (inv : PlayerInventory)
    (balance maxp pk bt qty : Nat)
    (hb : bt < NUM_BALL_TYPES) (hq : 0 < qty)
    (h64 : cfg.ball_prices bt * qty ≤ U64_MAX)
    (hmaxp : cfg.ball_prices bt * qty ≤ maxp)
    (hbal : cfg.ball_prices bt * qty ≤ balance)
    (hp0 : ¬ inv.player = 0)
    (hballs : inv.balls bt + qty ≤ U32_MAX)
    (htp : inv.total_purchased + qty ≤ U64_MAX)
    (hrev : cfg.total_revenue + cfg.ball_prices bt * qty ≤ U64_MAX) :
    purchase_balls cfg inv balance maxp pk bt qty = .ok
      ({ cfg with total_revenue :=
          cfg.total_revenue + cfg.ball_prices bt * qty },
       { inv with
           balls := Function.update inv.balls bt (inv.balls bt + qty)
           total_purchased := inv.total_purchased + qty },
       [.BallPurchased pk bt qty (cfg.ball_prices bt * qty)]) := by
  simp only [purchase_balls, if_pos hb, if_pos hq, checkedMulU128,
    if_pos (le_trans h64 (by norm_num : (U64_MAX : Nat) ≤ U128_MAX)), ok_bind, if_pos h64, if_pos hmaxp,
    if_pos hbal, if_neg hp0, checkedAddU32, if_pos hballs, checkedAddU64,
    if_pos htp, if_pos hrev]

theorem catchInventoryStep_overflow (inv : PlayerInventory)
    (h : inv.total_catches = U64_MAX) :
    catchInventoryStep (some inv) = .error .MathOverflow := by
  simp only [catchInventoryStep, checkedAddU64, h]
  rw [if_neg (by norm_num), error_bind]

theorem handle_throw_catch_overflow (st : GameState) (r : Nat → Nat)
    (remaining : List TransferGroup) (inv : PlayerInventory)
    (hidx : st.vrf_request.slot_index < MAX_POKEMON_SLOTS)
    (hball : st.vrf_request.ball_type < NUM_BALL_TYPES)
    (hc : catchRoll r < st.game_config.catch_rates st.vrf_request.ball_type)
    (hv0 : st.nft_vault.count = 0)
    (hpi : st.player_inventory = some inv)
    (hcat : inv.total_catches = U64_MAX) :
    handle_throw st r remaining = .error .MathOverflow := by
  simp only [handle_throw, if_pos hidx, if_pos hball, if_pos hc,
    awardStep_empty st.nft_vault st.vrf_request.player r remaining hv0,
    ok_bind, hpi, catchInventoryStep_overflow inv hcat, error_bind]

theorem handle_spawn_ok_counter (st : GameState) (r : Nat → Nat)
    (now : Int) (out : GameState × List GameEvent)
    (h : handle_spawn st r now = .ok out) :
    out.1.game_config.pokemon_id_counter
      = st.game_config.pokemon_id_counter + 1 := by
  simp only [handle_spawn] at h
  by_cases hidx : st.vrf_request.slot_index < MAX_POKEMON_SLOTS
  · rw [if_pos hidx] at h
    obtain ⟨hb1, h⟩ := checkedAddU64_bind_ok h
    obtain ⟨hb2, h⟩ := checkedAddU8_bind_ok h
    cases h
    rfl
  · rw [if_neg hidx] at h
    exact absurd h (by simp)

/-- C9: every counter increment and price computation in the core uses
checked arithmetic that fails the whole operation with `MathOverflow`
instead of wrapping or saturating: the `pokemon_id_counter` and
`active_count` increments of a spawn consume, the `vrf_counter`
increment of a spawn request, the `pokemon_id_counter` increment of
`force_spawn_pokemon`, the price-times-quantity cost (checked `u128`
multiply plus a `u64` cap check), the per-tier ball balance,
`total_purchased` and `total_revenue` increments of `purchase_balls`,
and the `total_catches` increment of a caught throw; and on success
the updated values are the exact sums and products (no wrapping). -/
theorem checked_arithmetic_no_wrap (st : GameState) (r : Nat → Nat)
    (now : Int) (remaining : List TransferGroup) (cfg : GameConfig)
    (ps : PokemonSlots) (inv : PlayerInventory)
    (balance maxp pk bt qty idx px py : Nat) :
    (st.vrf_request.slot_index < MAX_POKEMON_SLOTS →
      st.game_config.pokemon_id_counter = U64_MAX →
      handle_spawn st r now = .error .MathOverflow) ∧
    (st.vrf_request.slot_index < MAX_POKEMON_SLOTS →
      st.game_config.pokemon_id_counter + 1 ≤ U64_MAX →
      st.pokemon_slots.active_count = U8_MAX →
      handle_spawn st r now = .error .MathOverflow) ∧
    (idx < MAX_POKEMON_SLOTS → (ps.slots idx).is_active = false →
      ps.active_count < cfg.max_active_pokemon →
      cfg.vrf_counter = U64_MAX →
      spawn_pokemon_request cfg ps idx = .error .MathOverflow) ∧
    (idx < MAX_POKEMON_SLOTS → px ≤ MAX_COORDINATE → py ≤ MAX_COORDINATE →
      (ps.slots idx).is_active = false →
      ps.active_count < cfg.max_active_pokemon →
      cfg.pokemon_id_counter = U64_MAX →
      force_spawn_pokemon cfg ps idx px py now = .error .MathOverflow) ∧
    (bt < NUM_BALL_TYPES → 0 < qty →
      cfg.ball_prices bt * qty ≤ U128_MAX →
      U64_MAX < cfg.ball_prices bt * qty →
      purchase_balls cfg inv balance maxp pk bt qty
        = .error .MathOverflow) ∧
    (bt < NUM_BALL_TYPES → 0 < qty → cfg.ball_prices bt * qty ≤ U64_MAX →
      cfg.ball_prices bt * qty ≤ maxp → cfg.ball_prices bt * qty ≤ balance →
      ¬ inv.player = 0 → U32_MAX < inv.balls bt + qty →
      purchase_balls cfg inv balance maxp pk bt qty
        = .error .MathOverflow) ∧
    (bt < NUM_BALL_TYPES → 0 < qty → cfg.ball_prices bt * qty ≤ U64_MAX →
      cfg.ball_prices bt * qty ≤ maxp → cfg.ball_prices bt * qty ≤ balance →
      ¬ inv.player = 0 → inv.balls bt + qty ≤ U32_MAX →
      U64_MAX < inv.total_purchased + qty →
      purchase_balls cfg inv balance maxp pk bt qty
        = .error .MathOverflow) ∧
    (bt < NUM_BALL_TYPES → 0 < qty → cfg.ball_prices bt * qty ≤ U64_MAX →
      cfg.ball_prices bt * qty ≤ maxp → cfg.ball_prices bt * qty ≤ balance →
      ¬ inv.player = 0 → inv.balls bt + qty ≤ U32_MAX →
      inv.total_purchased + qty ≤ U64_MAX →
      U64_MAX < cfg.total_revenue + cfg.ball_prices bt * qty →
      purchase_balls cfg inv balance maxp pk bt qty
        = .error .MathOverflow) ∧
    (st.vrf_request.slot_index < MAX_POKEMON_SLOTS →
      st.vrf_request.ball_type < NUM_BALL_TYPES →
      catchRoll r < st.game_config.catch_rates st.vrf_request.ball_type →
      st.nft_vault.count = 0 → st.player_inventory = some inv →
      inv.total_catches = U64_MAX →
      handle_throw st r remaining = .error .MathOverflow) ∧
    (∀ out, handle_spawn st r now = .ok out →
      out.1.game_config.pokemon_id_counter
        = st.game_config.pokemon_id_counter + 1) ∧
    (bt < NUM_BALL_TYPES → 0 < qty → cfg.ball_prices bt * qty ≤ U64_MAX →
      cfg.ball_prices bt * qty ≤ maxp → cfg.ball_prices bt * qty ≤ balance →
      ¬ inv.player = 0 → inv.balls bt + qty ≤ U32_MAX →
      inv.total_purchased + qty ≤ U64_MAX →
      cfg.total_revenue + cfg.ball_prices bt * qty ≤ U64_MAX →
      purchase_balls cfg inv balance maxp pk bt qty = .ok
        ({ cfg with total_revenue :=
            cfg.total_revenue + cfg.ball_prices bt * qty },
         { inv with
             balls := Function.update inv.balls bt (inv.balls bt + qty)
             total_purchased := inv.total_purchased + qty },
         [.BallPurchased pk bt qty (cfg.ball_prices bt * qty)])) :=
  ⟨handle_spawn_pid_overflow st r now,
   handle_spawn_ac_overflow st r now,
   spawn_request_vrf_overflow cfg ps idx,
   force_spawn_pid_overflow cfg ps idx px py now,
   purchase_cost_exceeds_u64 cfg inv balance maxp pk bt qty,
   purchase_balls_tier_overflow cfg inv balance maxp pk bt qty,
   purchase_total_purchased_overflow cfg inv balance maxp pk bt qty,
   purchase_revenue_overflow cfg inv balance maxp pk bt qty,
   fun h1 h2 h3 h4 h5 h6 =>
     handle_throw_catch_overflow st r remaining inv h1 h2 h3 h4 h5 h6,
   handle_spawn_ok_counter st r now,
   purchase_balls_eq cfg inv balance maxp pk bt qty⟩

/-- Witness for C9 at concrete overflow inputs: spawn consume with the
id counter at the `u64` cap, a spawn request with the VRF counter at
the cap, a caught throw with `total_catches` at the cap, and a
purchase whose price-times-quantity exceeds `u64`, all fail with
`MathOverflow`. -/
theorem checked_arithmetic_no_wrap_witness :
    handle_spawn stSpawnMaxId rZero 0 = .error .MathOverflow ∧
    spawn_pokemon_request cfgMaxVrf slotsOne 1 = .error .MathOverflow ∧
    handle_throw stThrowMaxCatches rZero [] = .error .MathOverflow ∧
    purchase_balls cfgBigPrice invFresh 0 0 77 0 2
      = .error .MathOverflow := by
  refine ⟨?_, ?_, ?_, ?_⟩
  · exact (checked_arithmetic_no_wrap stSpawnMaxId rZero 0 [] cfgC slotsOne
      invFresh 0 0 77 0 0 0 0 0).1 (by decide) rfl
  · exact (checked_arithmetic_no_wrap stSpawnMaxId rZero 0 [] cfgMaxVrf
      slotsOne invFresh 0 0 77 0 0 1 0 0).2.2.1 (by decide) (by decide)
      (by decide) rfl
  · exact (checked_arithmetic_no_wrap stThrowMaxCatches rZero 0 []
      cfgC slotsOne invMaxCatches 0 0 77 0 0 0 0 0).2.2.2.2.2.2.2.2.1
      (by decide) (by decide) (by decide) rfl rfl rfl
  · exact (checked_arithmetic_no_wrap stSpawnMaxId rZero 0 [] cfgBigPrice
      slotsOne invFresh 0 0 77 0 2 0 0 0).2.2.2.2.1 (by decide) (by decide)
      (by norm_num [cfgBigPrice]) (by norm_num [cfgBigPrice])

theorem filter_update_activate (f : Nat → PokemonSlot) (idx : Nat)
    (hidx : idx < MAX_POKEMON_SLOTS) (v : PokemonSlot)
    (hold : (f idx).is_active = false) (hv : v.is_active = true) :
    (Finset.range MAX_POKEMON_SLOTS).filter
      (fun i => ((Function.update f idx v) i).is_active = true)
    = insert idx ((Finset.range MAX_POKEMON_SLOTS).filter
        (fun i => (f i).is_active = true)) := by
  ext i
  simp only [Finset.mem_filter, Finset.mem_range, Finset.mem_insert]
  by_cases hi : i = idx
  · subst hi
    simp [Function.update_same, hv, hidx]
  · rw [Function.update_noteq hi]
    constructor
    · rintro ⟨h1, h2⟩
      exact Or.inr ⟨h1, h2⟩
    · rintro (h | ⟨h1, h2⟩)
      · exact absurd h hi
      · exact ⟨h1, h2⟩

theorem card_update_activate (f : Nat → PokemonSlot) (idx : Nat)
    (hidx : idx < MAX_POKEMON_SLOTS) (v : PokemonSlot)
    (hold : (f idx).is_active = false) (hv : v.is_active = true) :
    ((Finset.range MAX_POKEMON_SLOTS).filter
      (fun i => ((Function.update f idx v) i).is_active = true)).card
    = ((Finset.range MAX_POKEMON_SLOTS).filter
        (fun i => (f i).is_active = true)).card + 1 := by
  rw [filter_update_activate f idx hidx v hold hv,
    Finset.card_insert_of_not_mem]
  simp [hold]

theorem filter_update_deactivate (f : Nat → PokemonSlot) (idx : Nat)
    (v : PokemonSlot) (hv : v.is_active = false) :
    (Finset.range MAX_POKEMON_SLOTS).filter
      (fun i => ((Function.update f idx v) i).is_active = true)
    = ((Finset.range MAX_POKEMON_SLOTS).filter
        (fun i => (f i).is_active = true)).erase idx := by
  ext i
  simp only [Finset.mem_filter, Finset.mem_range, Finset.mem_erase]
  by_cases hi : i = idx
  · subst hi
    simp [Function.update_same, hv]
  · rw [Function.update_noteq hi]
    constructor
    · rintro ⟨h1, h2⟩
      exact ⟨hi, h1, h2⟩
    · rintro ⟨_, h1, h2⟩
      exact ⟨h1, h2⟩

theorem card_update_deactivate (f : Nat → PokemonSlot) (idx : Nat)
    (hidx : idx < MAX_POKEMON_SLOTS) (v : PokemonSlot)
    (hold : (f idx).is_active = true) (hv : v.is_active = false) :
    ((Finset.range MAX_POKEMON_SLOTS).filter
      (fun i => ((Function.update f idx v) i).is_active = true)).card
    = ((Finset.range MAX_POKEMON_SLOTS).filter
        (fun i => (f i).is_active = true)).card - 1 := by
  rw [filter_update_deactivate f idx v hv, Finset.card_erase_of_mem]
  simp [hidx, hold]

theorem card_update_sameActivity (f : Nat → PokemonSlot) (idx : Nat)
    (v : PokemonSlot) (hsame : v.is_active = (f idx).is_active) :
    ((Finset.range MAX_POKEMON_SLOTS).filter
      (fun i => ((Function.update f idx v) i).is_active = true)).card
    = ((Finset.range MAX_POKEMON_SLOTS).filter
        (fun i => (f i).is_active = true)).card := by
  congr 1
  ext i
  simp only [Finset.mem_filter, Finset.mem_range]
  by_cases hi : i = idx
  · subst hi
    rw [Function.update_same, hsame]
  · rw [Function.update_noteq hi]

theorem vault_card (m : Nat → Nat) (c : Nat) (hc : c ≤ MAX_POKEMON_SLOTS)
    (hpre : ∀ i, i < c → m i ≠ 0)
    (hsuf : ∀ i, i < MAX_POKEMON_SLOTS → c ≤ i → m i = 0) :
    ((Finset.range MAX_POKEMON_SLOTS).filter (fun i => m i ≠ 0)).card
      = c := by
  have hset : (Finset.range MAX_POKEMON_SLOTS).filter (fun i => m i ≠ 0)
      = Finset.range c := by
    ext i
    simp only [Finset.mem_filter, Finset.mem_range]
    constructor
    · rintro ⟨h20, hne⟩
      by_contra hge
      exact hne (hsuf i h20 (by omega))
    · intro hic
      exact ⟨by omega, hpre i hic⟩
  rw [hset, Finset.card_range]

theorem removeMintAt_eval_lt (m : Nat → Nat) (c idx i : Nat)
    (hidx : idx < c) (hi : i < c - 1) :
    removeMintAt m c idx i = if i = idx then m (c - 1) else m i := by
  simp only [removeMintAt]
  rw [Function.update_noteq (by omega : i ≠ c - 1)]
  by_cases hl : idx = c - 1
  · rw [if_neg (fun hcon => hcon hl), if_neg (by omega : ¬ i = idx)]
  · rw [if_pos hl]
    by_cases hii : i = idx
    · subst hii
      rw [Function.update_same, if_pos rfl]
    · rw [Function.update_noteq hii, if_neg hii]

theorem removeMintAt_eval_last (m : Nat → Nat) (c idx : Nat) :
    removeMintAt m c idx (c - 1) = 0 := by
  simp only [removeMintAt]
  exact Function.update_same _ _ _

theorem removeMintAt_eval_ge (m : Nat → Nat) (c idx i : Nat)
    (hidx : idx < c) (hi : c ≤ i) :
    removeMintAt m c idx i = m i := by
  simp only [removeMintAt]
  rw [Function.update_noteq (by omega : i ≠ c - 1)]
  by_cases hl : idx = c - 1
  · rw [if_neg (fun hcon => hcon hl)]
  · rw [if_pos hl, Function.update_noteq (by omega : i ≠ idx)]

theorem removeMintAt_vaultInv (v : NftVault) (idx : Nat)
    (hinv : vaultInv v) (hidx : idx < v.count) :
    vaultInv { v with mints := removeMintAt v.mints v.count idx
                      count := v.count - 1 } := by
  obtain ⟨hc20, hms, hcard, hpre, hsuf, hinj⟩ := hinv
  have hpre' : ∀ i, i < v.count - 1 →
      removeMintAt v.mints v.count idx i ≠ 0 := by
    intro i hi
    rw [removeMintAt_eval_lt v.mints v.count idx i hidx hi]
    by_cases hii : i = idx
    · rw [if_pos hii]
      exact hpre _ (by omega)
    · rw [if_neg hii]
      exact hpre _ (by omega)
  have hsuf' : ∀ i, i < MAX_POKEMON_SLOTS → v.count - 1 ≤ i →
      removeMintAt v.mints v.count idx i = 0 := by
    intro i h20 hge
    by_cases hlast : i = v.count - 1
    · subst hlast
      exact removeMintAt_eval_last v.mints v.count idx
    · rw [removeMintAt_eval_ge v.mints v.count idx i hidx (by omega)]
      exact hsuf i h20 (by omega)
  refine ⟨?_, ?_, ?_, hpre', hsuf', ?_⟩
  · show v.count - 1 ≤ MAX_POKEMON_SLOTS
    omega
  · show v.max_size ≤ MAX_POKEMON_SLOTS
    exact hms
  · show ((Finset.range MAX_POKEMON_SLOTS).filter
        (fun i => removeMintAt v.mints v.count idx i ≠ 0)).card
      = v.count - 1
    exact vault_card _ _ (by omega) hpre' hsuf'
  · show ∀ i, i < v.count - 1 → ∀ j, j < v.count - 1 → i ≠ j →
      removeMintAt v.mints v.count idx i ≠ removeMintAt v.mints v.count idx j
    intro i hi j hj hne
    rw [removeMintAt_eval_lt v.mints v.count idx i hidx hi,
      removeMintAt_eval_lt v.mints v.count idx j hidx hj]
    by_cases hii : i = idx
    · rw [if_pos hii, if_neg (by omega : ¬ j = idx)]
      exact hinj _ (by omega) _ (by omega) (by omega)
    · rw [if_neg hii]
      by_cases hjj : j = idx
      · rw [if_pos hjj]
        exact hinj _ (by omega) _ (by omega) (by omega)
      · rw [if_neg hjj]
        exact hinj _ (by omega) _ (by omega) hne

theorem deposit_nft_vaultInv (v : NftVault) (mint : Nat)
    (hinv : vaultInv v) (hmint : mint ≠ 0)
    (hfresh : ∀ i, i < v.count → v.mints i ≠ mint) :
    ∀ out, deposit_nft v mint = .ok out → vaultInv out.1 := by
  intro out h
  obtain ⟨hc20, hms, hcard, hpre, hsuf, hinj⟩ := hinv
  simp only [deposit_nft] at h
  by_cases hcm : v.count < v.max_size
  · rw [if_pos hcm] at h
    obtain ⟨hb, h⟩ := checkedAddU8_bind_ok h
    cases h
    have hpre' : ∀ i, i < v.count + 1 →
        Function.update v.mints v.count mint i ≠ 0 := by
      intro i hi
      by_cases hic : i = v.count
      · subst hic
        rw [Function.update_same]
        exact hmint
      · rw [Function.update_noteq hic]
        exact hpre i (by omega)
    have hsuf' : ∀ i, i < MAX_POKEMON_SLOTS → v.count + 1 ≤ i →
        Function.update v.mints v.count mint i = 0 := by
      intro i h20 hge
      rw [Function.update_noteq (by omega)]
      exact hsuf i h20 (by omega)
    refine ⟨?_, ?_, ?_, hpre', hsuf', ?_⟩
    · show v.count + 1 ≤ MAX_POKEMON_SLOTS
      omega
    · show v.max_size ≤ MAX_POKEMON_SLOTS
      exact hms
    · show ((Finset.range MAX_POKEMON_SLOTS).filter
          (fun i => Function.update v.mints v.count mint i ≠ 0)).card
        = v.count + 1
      exact vault_card _ _ (by omega) hpre' hsuf'
    · show ∀ i, i < v.count + 1 → ∀ j, j < v.count + 1 → i ≠ j →
        Function.update v.mints v.count mint i
          ≠ Function.update v.mints v.count mint j
      intro i hi j hj hne
      by_cases hic : i = v.count
      · subst hic
        rw [Function.update_same, Function.update_noteq (by omega)]
        exact (hfresh j (by omega)).symm
      · rw [Function.update_noteq hic]
        by_cases hjc : j = v.count
        · subst hjc
          rw [Function.update_same]
          exact hfresh i (by omega)
        · rw [Function.update_noteq hjc]
          exact hinj i (by omega) j (by omega) hne
  · rw [if_neg hcm] at h
    exact absurd h (by simp)

theorem withdraw_nft_vaultInv (v : NftVault) (nft_index : Nat)
    (hinv : vaultInv v) :
    ∀ out, withdraw_nft v nft_index = .ok out → vaultInv out.1 := by
  intro out h
  simp only [withdraw_nft] at h
  by_cases hidx : nft_index < v.count
  · rw [if_pos hidx] at h
    cases h
    exact removeMintAt_vaultInv v nft_index hinv hidx
  · rw [if_neg hidx] at h
    exact absurd h (by simp)

theorem handle_throw_ok_vault (st : GameState) (r : Nat → Nat)
    (remaining : List TransferGroup) (out : GameState × List GameEvent)
    (h : handle_throw st r remaining = .ok out) :
    out.1.nft_vault = st.nft_vault ∨
    (0 < st.nft_vault.count ∧
      out.1.nft_vault = { st.nft_vault with
        mints := removeMintAt st.nft_vault.mints st.nft_vault.count
          (nftSelIndex r st.nft_vault.count)
        count := st.nft_vault.count - 1 }) := by
  simp only [handle_throw] at h
  by_cases hidx : st.vrf_request.slot_index < MAX_POKEMON_SLOTS
  · rw [if_pos hidx] at h
    by_cases hball : st.vrf_request.ball_type < NUM_BALL_TYPES
    · rw [if_pos hball] at h
      by_cases hcatch : catchRoll r <
          st.game_config.catch_rates st.vrf_request.ball_type
      · rw [if_pos hcatch] at h
        obtain ⟨trip, htrip, h⟩ := bind_ok_inv h
        obtain ⟨v', aw, aevs⟩ := trip
        obtain ⟨inv', hinv, h⟩ := bind_ok_inv h
        cases h
        rcases awardStep_ok_cases st.nft_vault st.vrf_request.player r
            remaining v' aw aevs htrip with ⟨_, hv, _, _⟩ | ⟨hc, hv, _, _⟩
        · exact Or.inl hv
        · exact Or.inr ⟨hc, hv⟩
      · rw [if_neg hcatch] at h
        obtain ⟨ta, hta, h⟩ := bind_ok_inv h
        by_cases hmax : MAX_THROW_ATTEMPTS ≤ ta
        · rw [if_pos hmax] at h
          cases h
          exact Or.inl rfl
        · rw [if_neg hmax] at h
          cases h
          exact Or.inl rfl
    · rw [if_neg hball] at h
      exact absurd h (by simp)
  · rw [if_neg hidx] at h
    exact absurd h (by simp)

theorem handle_throw_vaultInv (st : GameState) (r : Nat → Nat)
    (remaining : List TransferGroup) (hinv : vaultInv st.nft_vault) :
    ∀ out, handle_throw st r remaining = .ok out →
      vaultInv out.1.nft_vault := by
  intro out h
  rcases handle_throw_ok_vault st r remaining out h with heq | ⟨hc, heq⟩
  · rw [heq]
    exact hinv
  · rw [heq]
    exact removeMintAt_vaultInv st.nft_vault _ hinv (Nat.mod_lt _ hc)

/-- Counterexample to C4 as stated: `deposit_nft` performs no
membership or non-default check on the deposited mint, so depositing
mint 5 into a vault already holding mint 5 (possible when the "NFT"
mint has supply above one, which `deposit_nft` does not rule out)
succeeds and yields an array in which mint 5 appears twice, violating
the invariant. -/
theorem vault_duplicate_deposit_counterexample :
    vaultInv vaultOne ∧
    deposit_nft vaultOne 5 = .ok (vaultDup, [.NftDeposited 5 2]) ∧
    ¬ vaultInv vaultDup :=
  ⟨by unfold vaultInv; decide, by rfl, by unfold vaultInv; decide⟩

/-- C4 amended: `withdraw_nft` and the award step of a throw consume
preserve the vault invariant unconditionally, and `deposit_nft`
preserves it provided the deposited mint is non-default and not
already in the vault — which holds for genuine supply-1 NFTs, since
their single token cannot sit in the depositor's account and the
vault's token account at once, but is not checked by the code itself. -/
theorem vault_invariant_preserved (v : NftVault) (mint nft_index : Nat)
    (st : GameState) (r : Nat → Nat) (remaining : List TransferGroup) :
    (vaultInv v → mint ≠ 0 → (∀ i, i < v.count → v.mints i ≠ mint) →
      ∀ out, deposit_nft v mint = .ok out → vaultInv out.1) ∧
    (vaultInv v →
      ∀ out, withdraw_nft v nft_index = .ok out → vaultInv out.1) ∧
    (vaultInv st.nft_vault →
      ∀ out, handle_throw st r remaining = .ok out →
        vaultInv out.1.nft_vault) :=
  ⟨deposit_nft_vaultInv v mint,
   withdraw_nft_vaultInv v nft_index,
   handle_throw_vaultInv st r remaining⟩

/-- Witness for the amended C4: depositing fresh mint 7 into
`vaultOne`, withdrawing index 0 from `vaultOne`, and the award of a
caught throw against `stThrow` all yield vaults satisfying the
invariant. -/
theorem vault_invariant_preserved_witness :
    vaultInv vaultDep7 ∧ vaultInv vaultAfterWithdraw ∧
    vaultInv stThrowCaughtState.nft_vault :=
  ⟨(vault_invariant_preserved vaultOne 7 0 stThrow rZero []).1
      (by unfold vaultInv; decide) (by decide) (by decide)
      (vaultDep7, [.NftDeposited 7 2]) (by rfl),
   (vault_invariant_preserved vaultOne 7 0 stThrow rZero []).2.1
      (by unfold vaultInv; decide)
      (vaultAfterWithdraw, [.NftWithdrawn 5 0]) (by rfl),
   (vault_invariant_preserved vaultOne 7 0 stThrow rZero []).2.2
      (by unfold vaultInv; decide)
      (stThrowCaughtState, [.NftAwarded 77 5 0, .CaughtPokemon 77 1 0 5])
      (by rfl)⟩

theorem handle_spawn_ok_inv (st : GameState) (r : Nat → Nat) (now : Int)
    (out : GameState × List GameEvent) (h : handle_spawn st r now = .ok out) :
    st.vrf_request.slot_index < MAX_POKEMON_SLOTS ∧
    out.1.game_config = { st.game_config with
      pokemon_id_counter := st.game_config.pokemon_id_counter + 1 } ∧
    out.1.pokemon_slots =
      { slots := Function.update st.pokemon_slots.slots
          st.vrf_request.slot_index
          { is_active := true
            pokemon_id := st.game_config.pokemon_id_counter + 1
            pos_x := spawnPosX r, pos_y := spawnPosY r
            throw_attempts := 0, spawn_timestamp := now }
        active_count := st.pokemon_slots.active_count + 1 } := by
  simp only [handle_spawn] at h
  by_cases hidx : st.vrf_request.slot_index < MAX_POKEMON_SLOTS
  · rw [if_pos hidx] at h
    obtain ⟨hb1, h⟩ := checkedAddU64_bind_ok h
    obtain ⟨hb2, h⟩ := checkedAddU8_bind_ok h
    cases h
    exact ⟨hidx, rfl, rfl⟩
  · rw [if_neg hidx] at h
    exact absurd h (by simp)

theorem handle_throw_ok_slots (st : GameState) (r : Nat → Nat)
    (remaining : List TransferGroup) (out : GameState × List GameEvent)
    (h : handle_throw st r remaining = .ok out) :
    st.vrf_request.slot_index < MAX_POKEMON_SLOTS ∧
    out.1.game_config = st.game_config ∧
    ((catchRoll r < st.game_config.catch_rates st.vrf_request.ball_type ∧
      out.1.pokemon_slots =
        { slots := Function.update st.pokemon_slots.slots
            st.vrf_request.slot_index PokemonSlot.empty
          active_count := st.pokemon_slots.active_count - 1 }) ∨
     (¬ catchRoll r < st.game_config.catch_rates st.vrf_request.ball_type ∧
      out.1.pokemon_slots =
        { slots := Function.update st.pokemon_slots.slots
            st.vrf_request.slot_index
            { st.pokemon_slots.slots st.vrf_request.slot_index with
                pos_x := relocX r, pos_y := relocY r, throw_attempts := 0 }
          active_count := st.pokemon_slots.active_count }) ∨
     (¬ catchRoll r < st.game_config.catch_rates st.vrf_request.ball_type ∧
      (st.pokemon_slots.slots st.vrf_request.slot_index).throw_attempts +
        1 < MAX_THROW_ATTEMPTS ∧
      out.1.pokemon_slots =
        { slots := Function.update st.pokemon_slots.slots
            st.vrf_request.slot_index
            { st.pokemon_slots.slots st.vrf_request.slot_index with
                throw_attempts :=
                  (st.pokemon_slots.slots
                    st.vrf_request.slot_index).throw_attempts + 1 }
          active_count := st.pokemon_slots.active_count })) := by
  simp only [handle_throw] at h
  by_cases hidx : st.vrf_request.slot_index < MAX_POKEMON_SLOTS
  · rw [if_pos hidx] at h
    by_cases hball : st.vrf_request.ball_type < NUM_BALL_TYPES
    · rw [if_pos hball] at h
      by_cases hcatch : catchRoll r <
          st.game_config.catch_rates st.vrf_request.ball_type
      · rw [if_pos hcatch] at h
        obtain ⟨trip, htrip, h⟩ := bind_ok_inv h
        obtain ⟨v', aw, aevs⟩ := trip
        obtain ⟨inv', hinv, h⟩ := bind_ok_inv h
        cases h
        exact ⟨hidx, rfl, Or.inl ⟨hcatch, rfl⟩⟩
      · rw [if_neg hcatch] at h
        obtain ⟨hta, h⟩ := checkedAddU8_bind_ok h
        by_cases hmax : MAX_THROW_ATTEMPTS ≤
            (st.pokemon_slots.slots
              st.vrf_request.slot_index).throw_attempts + 1
        · rw [if_pos hmax] at h
          cases h
          exact ⟨hidx, rfl, Or.inr (Or.inl ⟨hcatch, rfl⟩)⟩
        · rw [if_neg hmax] at h
          cases h
          exact ⟨hidx, rfl, Or.inr (Or.inr ⟨hcatch, by omega, rfl⟩)⟩
    · rw [if_neg hball] at h
      exact absurd h (by simp)
  · rw [if_neg hidx] at h
    exact absurd h (by simp)

theorem despawn_ok_inv (ps : PokemonSlots) (idx : Nat)
    (out : PokemonSlots × List GameEvent)
    (h : despawn_pokemon ps idx = .ok out) :
    idx < MAX_POKEMON_SLOTS ∧ (ps.slots idx).is_active = true ∧
    out.1 = { slots := Function.update ps.slots idx PokemonSlot.empty
              active_count := ps.active_count - 1 } := by
  simp only [despawn_pokemon] at h
  by_cases hidx : idx < MAX_POKEMON_SLOTS
  · rw [if_pos hidx] at h
    by_cases hact : (ps.slots idx).is_active = true
    · rw [if_pos hact] at h
      cases h
      exact ⟨hidx, hact, rfl⟩
    · rw [if_neg hact] at h
      exact absurd h (by simp)
  · rw [if_neg hidx] at h
    exact absurd h (by simp)

theorem reposition_ok_inv (ps : PokemonSlots) (idx nx ny : Nat)
    (out : PokemonSlots × List GameEvent)
    (h : reposition_pokemon ps idx nx ny = .ok out) :
    idx < MAX_POKEMON_SLOTS ∧ (ps.slots idx).is_active = true ∧
    out.1 = { slots := Function.update ps.slots idx
                { ps.slots idx with pos_x := nx, pos_y := ny
                                    throw_attempts := 0 }
              active_count := ps.active_count } := by
  simp only [reposition_pokemon] at h
  by_cases hidx : idx < MAX_POKEMON_SLOTS
  · rw [if_pos hidx] at h
    by_cases hx : nx ≤ MAX_COORDINATE
    · rw [if_pos hx] at h
      by_cases hy : ny ≤ MAX_COORDINATE
      · rw [if_pos hy] at h
        by_cases hact : (ps.slots idx).is_active = true
        · rw [if_pos hact] at h
          cases h
          exact ⟨hidx, hact, rfl⟩
        · rw [if_neg hact] at h
          exact absurd h (by simp)
      · rw [if_neg hy] at h
        exact absurd h (by simp)
    · rw [if_neg hx] at h
      exact absurd h (by simp)
  · rw [if_neg hidx] at h
    exact absurd h (by simp)

theorem force_spawn_ok_inv (cfg : GameConfig) (ps : PokemonSlots)
    (idx px py : Nat) (now : Int)
    (out : GameConfig × PokemonSlots × List GameEvent)
    (h : force_spawn_pokemon cfg ps idx px py now = .ok out) :
    idx < MAX_POKEMON_SLOTS ∧ (ps.slots idx).is_active = false ∧
    out.1 = { cfg with
      pokemon_id_counter := cfg.pokemon_id_counter + 1 } ∧
    out.2.1 = { slots := Function.update ps.slots idx
                  { is_active := true
                    pokemon_id := cfg.pokemon_id_counter + 1
                    pos_x := px, pos_y := py, throw_attempts := 0
                    spawn_timestamp := now }
                active_count := ps.active_count + 1 } := by
  simp only [force_spawn_pokemon] at h
  by_cases hidx : idx < MAX_POKEMON_SLOTS
  · rw [if_pos hidx] at h
    by_cases hx : px ≤ MAX_COORDINATE
    · rw [if_pos hx] at h
      by_cases hy : py ≤ MAX_COORDINATE
      · rw [if_pos hy] at h
        by_cases hact : (ps.slots idx).is_active = true
        · rw [if_pos hact] at h
          exact absurd h (by simp)
        · rw [if_neg hact] at h
          by_cases hcap : ps.active_count < cfg.max_active_pokemon
          · rw [if_pos hcap] at h
            obtain ⟨hb1, h⟩ := checkedAddU64_bind_ok h
            obtain ⟨hb2, h⟩ := checkedAddU8_bind_ok h
            cases h
            exact ⟨hidx, by rwa [Bool.not_eq_true] at hact, rfl, rfl⟩
          · rw [if_neg hcap] at h
            exact absurd h (by simp)
      · rw [if_neg hy] at h
        exact absurd h (by simp)
    · rw [if_neg hx] at h
      exact absurd h (by simp)
  · rw [if_neg hidx] at h
    exact absurd h (by simp)

theorem registry_update_new (f : Nat → PokemonSlot) (ac ctr idx : Nat)
    (v : PokemonSlot) (hidx : idx < MAX_POKEMON_SLOTS)
    (hreg : registryInv ⟨f, ac⟩)
    (hids : ∀ i, i < MAX_POKEMON_SLOTS → (f i).is_active = true →
      (f i).pokemon_id ≤ ctr)
    (hinact : (f idx).is_active = false)
    (hva : v.is_active = true) (hvid : v.pokemon_id = ctr + 1)
    (hvta : v.throw_attempts = 0) :
    registryInv ⟨Function.update f idx v, ac + 1⟩ ∧
    (∀ i, i < MAX_POKEMON_SLOTS →
      ((Function.update f idx v) i).is_active = true →
      ((Function.update f idx v) i).pokemon_id ≤ ctr + 1) := by
  obtain ⟨hcount, hnz, huniq, hta⟩ := hreg
  have hcount' : ac = ((Finset.range MAX_POKEMON_SLOTS).filter
      (fun i => (f i).is_active = true)).card := hcount
  have hc := card_update_activate f idx hidx v hinact hva
  simp only [registryInv, activeCard]
  refine ⟨⟨?_, ?_, ?_, ?_⟩, ?_⟩
  · omega
  · intro i hi hact
    by_cases hii : i = idx
    · subst hii
      rw [Function.update_same]
      rw [hvid]
      exact Nat.succ_ne_zero ctr
    · rw [Function.update_noteq hii] at hact ⊢
      exact hnz i hi hact
  · intro i hi j hj hne hai haj
    by_cases hii : i = idx
    · subst hii
      rw [Function.update_same]
      rw [Function.update_noteq (Ne.symm hne)] at haj ⊢
      rw [hvid]
      have := hids j hj haj
      omega
    · rw [Function.update_noteq hii] at hai ⊢
      by_cases hjj : j = idx
      · subst hjj
        rw [Function.update_same]
        rw [hvid]
        have := hids i hi hai
        omega
      · rw [Function.update_noteq hjj] at haj ⊢
        exact huniq i hi j hj hne hai haj
  · intro i hi
    by_cases hii : i = idx
    · subst hii
      rw [Function.update_same, hvta]
      exact Nat.zero_le _
    · rw [Function.update_noteq hii]
      exact hta i hi
  · intro i hi hact
    by_cases hii : i = idx
    · subst hii
      rw [Function.update_same, hvid]
    · rw [Function.update_noteq hii] at hact ⊢
      have := hids i hi hact
      omega

theorem registry_update_clear (f : Nat → PokemonSlot) (ac ctr idx : Nat)
    (hidx : idx < MAX_POKEMON_SLOTS)
    (hreg : registryInv ⟨f, ac⟩)
    (hids : ∀ i, i < MAX_POKEMON_SLOTS → (f i).is_active = true →
      (f i).pokemon_id ≤ ctr)
    (hact : (f idx).is_active = true) :
    registryInv ⟨Function.update f idx PokemonSlot.empty, ac - 1⟩ ∧
    (∀ i, i < MAX_POKEMON_SLOTS →
      ((Function.update f idx PokemonSlot.empty) i).is_active = true →
      ((Function.update f idx PokemonSlot.empty) i).pokemon_id ≤ ctr) := by
  obtain ⟨hcount, hnz, huniq, hta⟩ := hreg
  have hcount' : ac = ((Finset.range MAX_POKEMON_SLOTS).filter
      (fun i => (f i).is_active = true)).card := hcount
  have hc := card_update_deactivate f idx hidx PokemonSlot.empty hact rfl
  simp only [registryInv, activeCard]
  refine ⟨⟨?_, ?_, ?_, ?_⟩, ?_⟩
  · omega
  · intro i hi hai
    by_cases hii : i = idx
    · subst hii
      rw [Function.update_same] at hai
      exact absurd hai (by simp [PokemonSlot.empty])
    · rw [Function.update_noteq hii] at hai ⊢
      exact hnz i hi hai
  · intro i hi j hj hne hai haj
    by_cases hii : i = idx
    · subst hii
      rw [Function.update_same] at hai
      exact absurd hai (by simp [PokemonSlot.empty])
    · by_cases hjj : j = idx
      · subst hjj
        rw [Function.update_same] at haj
        exact absurd haj (by simp [PokemonSlot.empty])
      · rw [Function.update_noteq hii] at hai ⊢
        rw [Function.update_noteq hjj] at haj ⊢
        exact huniq i hi j hj hne hai haj
  · intro i hi
    by_cases hii : i = idx
    · subst hii
      rw [Function.update_same]
      exact Nat.zero_le _
    · rw [Function.update_noteq hii]
      exact hta i hi
  · intro i hi hai
    by_cases hii : i = idx
    · subst hii
      rw [Function.update_same] at hai
      exact absurd hai (by simp [PokemonSlot.empty])
    · rw [Function.update_noteq hii] at hai ⊢
      exact hids i hi hai

theorem registry_update_keep (f : Nat → PokemonSlot) (ac ctr idx : Nat)
    (v : PokemonSlot) (hidx : idx < MAX_POKEMON_SLOTS)
    (hreg : registryInv ⟨f, ac⟩)
    (hids : ∀ i, i < MAX_POKEMON_SLOTS → (f i).is_active = true →
      (f i).pokemon_id ≤ ctr)
    (hva : v.is_active = (f idx).is_active)
    (hvid : v.pokemon_id = (f idx).pokemon_id)
    (hvta : v.throw_attempts ≤ MAX_THROW_ATTEMPTS) :
    registryInv ⟨Function.update f idx v, ac⟩ ∧
    (∀ i, i < MAX_POKEMON_SLOTS →
      ((Function.update f idx v) i).is_active = true →
      ((Function.update f idx v) i).pokemon_id ≤ ctr) := by
  obtain ⟨hcount, hnz, huniq, hta⟩ := hreg
  have hcount' : ac = ((Finset.range MAX_POKEMON_SLOTS).filter
      (fun i => (f i).is_active = true)).card := hcount
  have hc := card_update_sameActivity f idx v hva
  simp only [registryInv, activeCard]
  refine ⟨⟨?_, ?_, ?_, ?_⟩, ?_⟩
  · omega
  · intro i hi hai
    by_cases hii : i = idx
    · subst hii
      rw [Function.update_same] at hai ⊢
      rw [hvid]
      exact hnz i hi (hva ▸ hai)
    · rw [Function.update_noteq hii] at hai ⊢
      exact hnz i hi hai
  · intro i hi j hj hne hai haj
    by_cases hii : i = idx
    · subst hii
      rw [Function.update_same] at hai ⊢
      rw [Function.update_noteq (Ne.symm hne)] at haj ⊢
      rw [hvid]
      exact huniq i hi j hj hne (hva ▸ hai) haj
    · rw [Function.update_noteq hii] at hai ⊢
      by_cases hjj : j = idx
      · subst hjj
        rw [Function.update_same] at haj ⊢
        rw [hvid]
        exact huniq i hi j hj hne hai (hva ▸ haj)
      · rw [Function.update_noteq hjj] at haj ⊢
        exact huniq i hi j hj hne hai haj
  · intro i hi
    by_cases hii : i = idx
    · subst hii
      rw [Function.update_same]
      exact hvta
    · rw [Function.update_noteq hii]
      exact hta i hi
  · intro i hi hai
    by_cases hii : i = idx
    · subst hii
      rw [Function.update_same] at hai ⊢
      rw [hvid]
      exact hids i hi (hva ▸ hai)
    · rw [Function.update_noteq hii] at hai ⊢
      exact hids i hi hai

set_option synthInstance.maxSize 4096 in
/-- Counterexample to C2 as stated: neither consume path revalidates
the slot. Consuming a spawn request whose target slot was occupied in
the meantime overwrites the slot and pushes `active_count` above the
number of active slots; consuming a catching throw against a slot that
was emptied in the meantime decrements `active_count` below it. Both
start states satisfy the invariant (and the id-counter bound); both
results violate it. -/
theorem registry_invariant_counterexample :
    registryInv slotsOne ∧ idsBounded cfgC slotsOne ∧
    handle_spawn stSpawnClash rZero 0
      = .ok (stSpawnClashRes, [.PokemonSpawned 2 0 0 0]) ∧
    ¬ registryInv stSpawnClashRes.pokemon_slots ∧
    registryInv slotsGhost ∧ idsBounded cfgC slotsGhost ∧
    handle_throw stThrowGhost rZero []
      = .ok (stThrowGhostRes, [.CaughtPokemon 77 0 0 0]) ∧
    ¬ registryInv stThrowGhostRes.pokemon_slots :=
  ⟨by unfold registryInv activeCard; decide,
   by unfold idsBounded; decide,
   by rfl,
   by unfold registryInv activeCard; decide,
   by unfold registryInv activeCard; decide,
   by unfold idsBounded; decide,
   by rfl,
   by unfold registryInv activeCard; decide⟩

/-- C2 amended: every core operation on the slot registry preserves
the registry invariant together with the auxiliary bound that all
active ids are at most `pokemon_id_counter`, provided the consume
paths still see the slot state their request was created against: a
spawn consume's target slot is still inactive, and a catching throw
consume's target slot is still active (the administrative operations
re-check activity themselves, so they need no proviso). Without those
provisos the invariant can break, since `consume_randomness` does not
revalidate the slot. -/
theorem registry_invariant_preserved (st : GameState) (r : Nat → Nat)
    (now : Int) (remaining : List TransferGroup) (cfg : GameConfig)
    (ps : PokemonSlots) (idx px py nx ny : Nat) :
    (registryInv st.pokemon_slots →
      idsBounded st.game_config st.pokemon_slots →
      (st.pokemon_slots.slots st.vrf_request.slot_index).is_active = false →
      ∀ out, handle_spawn st r now = .ok out →
        registryInv out.1.pokemon_slots ∧
        idsBounded out.1.game_config out.1.pokemon_slots) ∧
    (registryInv st.pokemon_slots →
      idsBounded st.game_config st.pokemon_slots →
      (catchRoll r < st.game_config.catch_rates st.vrf_request.ball_type →
        (st.pokemon_slots.slots st.vrf_request.slot_index).is_active
          = true) →
      ∀ out, handle_throw st r remaining = .ok out →
        registryInv out.1.pokemon_slots ∧
        idsBounded out.1.game_config out.1.pokemon_slots) ∧
    (registryInv ps → idsBounded cfg ps →
      ∀ out, force_spawn_pokemon cfg ps idx px py now = .ok out →
        registryInv out.2.1 ∧ idsBounded out.1 out.2.1) ∧
    (registryInv ps → idsBounded cfg ps →
      ∀ out, despawn_pokemon ps idx = .ok out →
        registryInv out.1 ∧ idsBounded cfg out.1) ∧
    (registryInv ps → idsBounded cfg ps →
      ∀ out, reposition_pokemon ps idx nx ny = .ok out →
        registryInv out.1 ∧ idsBounded cfg out.1) := by
  refine ⟨?_, ?_, ?_, ?_, ?_⟩
  · intro hreg hids hinact out h
    obtain ⟨hidx, hcfg, hps⟩ := handle_spawn_ok_inv st r now out h
    rw [hps, hcfg]
    exact registry_update_new st.pokemon_slots.slots
      st.pokemon_slots.active_count st.game_config.pokemon_id_counter
      st.vrf_request.slot_index _ hidx hreg hids hinact rfl rfl rfl
  · intro hreg hids hcact out h
    obtain ⟨hidx, hcfg, hdisj⟩ := handle_throw_ok_slots st r remaining out h
    rcases hdisj with ⟨hc, hps⟩ | ⟨hc, hps⟩ | ⟨hc, hlt, hps⟩
    · rw [hps, hcfg]
      exact registry_update_clear st.pokemon_slots.slots
        st.pokemon_slots.active_count st.game_config.pokemon_id_counter
        st.vrf_request.slot_index hidx hreg hids (hcact hc)
    · rw [hps, hcfg]
      exact registry_update_keep st.pokemon_slots.slots
        st.pokemon_slots.active_count st.game_config.pokemon_id_counter
        st.vrf_request.slot_index _ hidx hreg hids rfl rfl (Nat.zero_le _)
    · rw [hps, hcfg]
      exact registry_update_keep st.pokemon_slots.slots
        st.pokemon_slots.active_count st.game_config.pokemon_id_counter
        st.vrf_request.slot_index _ hidx hreg hids rfl rfl
        (Nat.le_of_lt hlt)
  · intro hreg hids out h
    obtain ⟨hidx, hinact, hcfg, hps⟩ := force_spawn_ok_inv cfg ps idx px py
      now out h
    rw [hps, hcfg]
    exact registry_update_new ps.slots ps.active_count
      cfg.pokemon_id_counter idx _ hidx hreg hids hinact rfl rfl rfl
  · intro hreg hids out h
    obtain ⟨hidx, hact, hps⟩ := despawn_ok_inv ps idx out h
    rw [hps]
    exact registry_update_clear ps.slots ps.active_count
      cfg.pokemon_id_counter idx hidx hreg hids hact
  · intro hreg hids out h
    obtain ⟨hidx, hact, hps⟩ := reposition_ok_inv ps idx nx ny out h
    rw [hps]
    exact registry_update_keep ps.slots ps.active_count
      cfg.pokemon_id_counter idx _ hidx hreg hids rfl rfl (Nat.zero_le _)

set_option synthInstance.maxSize 4096 in
/-- Witness for the amended C2: the spawn of `stSpawn` into the empty
slot 1 and the catch of `stThrow` against the active slot 0 both end
in registry states satisfying the invariant. -/
theorem registry_invariant_preserved_witness :
    registryInv stSpawnRes.pokemon_slots ∧
    registryInv stThrowCaughtState.pokemon_slots :=
  ⟨((registry_invariant_preserved stSpawn rZero 0 [] cfgC slotsOne
        0 0 0 0 0).1
      (by unfold registryInv activeCard; decide)
      (by unfold idsBounded; decide) (by decide)
      (stSpawnRes, [.PokemonSpawned 2 1 0 0]) (by rfl)).1,
   ((registry_invariant_preserved stThrow rZero 0 [] cfgC slotsOne
        0 0 0 0 0).2.1
      (by unfold registryInv activeCard; decide)
      (by unfold idsBounded; decide) (fun _ => by decide)
      (stThrowCaughtState, [.NftAwarded 77 5 0, .CaughtPokemon 77 1 0 5])
      (by rfl)).1⟩

end Pokeball
